import Mathlib

/-!
# VulkanFunStuff: device selection and swapchain negotiation

A shallow embedding of the pure decision code of `src/src/Application.cpp`
(`findQueueFamilies`, `checkDeviceExtensionSupport`, `querySwapchainSupport`,
`mostSuitableDevice`, `pickPhysicalDevice`, `chooseSwapSurfaceFormat`,
`chooseSwapPresentMode`, `chooseSwapExtent`) together with theorems about it.

The graphics runtime is an external library.  Every query the code issues
against it (`vkGetPhysicalDevice...`, `vkEnumerate...`) is answered by a field
of the record `Runtime`, so that each function of the program is a pure
function of the runtime's answers and of its own arguments.

Conventions.
* Handles (`VkPhysicalDevice`, `VkSurfaceKHR`) are natural numbers, the null
  handle being `0`.
* A `uint32_t` is a natural number.  The functions embedded here only compare
  and copy such values, so no wrap-around can occur in them.
* A `std::vector` is a `List`; a C string and a `std::string` are a `String`.
* A `throw std::runtime_error(msg)` is `Except.error msg`.
-/

namespace VulkanFunStuff

/-! ## Handles and constants of the graphics runtime -/

abbrev VkPhysicalDevice := Nat
abbrev VkSurfaceKHR := Nat

/-- The null handle. -/
def VK_NULL_HANDLE : Nat := 0

/-- Capability bit of a queue family that accepts graphics commands. -/
def VK_QUEUE_GRAPHICS_BIT : Nat := 1

def VK_PHYSICAL_DEVICE_TYPE_OTHER : Nat := 0
def VK_PHYSICAL_DEVICE_TYPE_INTEGRATED_GPU : Nat := 1
def VK_PHYSICAL_DEVICE_TYPE_DISCRETE_GPU : Nat := 2

def VK_FORMAT_B8G8R8A8_UNORM : Nat := 44
def VK_FORMAT_B8G8R8A8_SRGB : Nat := 50
def VK_COLOR_SPACE_SRGB_NONLINEAR_KHR : Nat := 0

def VK_PRESENT_MODE_IMMEDIATE_KHR : Nat := 0
def VK_PRESENT_MODE_MAILBOX_KHR : Nat := 1
def VK_PRESENT_MODE_FIFO_KHR : Nat := 2
def VK_PRESENT_MODE_FIFO_RELAXED_KHR : Nat := 3

def VK_KHR_SWAPCHAIN_EXTENSION_NAME : String := "VK_KHR_swapchain"

/-- The value of `std::numeric_limits<uint32_t>::max()`. -/
def UINT32_MAX : Nat := 2 ^ 32 - 1

/-! ## Records -/

structure VkExtent2D where
  width : Nat
  height : Nat
deriving DecidableEq, Repr

/-- The template `Size<T>` of the window interface, at `T = uint32_t`. -/
structure Size where
  width : Nat
  height : Nat
deriving DecidableEq, Repr

structure VkSurfaceFormatKHR where
  format : Nat
  colorSpace : Nat
deriving DecidableEq, Repr

/-- The fields of `VkSurfaceCapabilitiesKHR` that the program reads. -/
structure VkSurfaceCapabilitiesKHR where
  minImageCount : Nat
  maxImageCount : Nat
  currentExtent : VkExtent2D
  minImageExtent : VkExtent2D
  maxImageExtent : VkExtent2D
  currentTransform : Nat
deriving DecidableEq, Repr

/-- The fields of `VkQueueFamilyProperties` that the program reads. -/
structure VkQueueFamilyProperties where
  queueFlags : Nat
  queueCount : Nat
deriving DecidableEq, Repr

structure VkExtensionProperties where
  extensionName : String
  specVersion : Nat
deriving DecidableEq, Repr

/-- The struct `Application::QueueFamilyIndices`. -/
structure QueueFamilyIndices where
  graphicsFamily : Option Nat
  presentFamily : Option Nat
deriving DecidableEq, Repr

/-- The member `QueueFamilyIndices::isComplete`. -/
def QueueFamilyIndices.isComplete (indices : QueueFamilyIndices) : Bool :=
  indices.graphicsFamily.isSome && indices.presentFamily.isSome

/-- The struct `Application::SwapchainSupportDetails`. -/
structure SwapchainSupportDetails where
  capabilities : VkSurfaceCapabilitiesKHR
  formats : List VkSurfaceFormatKHR
  presentModes : List Nat
deriving DecidableEq, Repr

/-- The answers of the graphics runtime to the queries issued by the program. -/
structure Runtime where
  /-- The count written by `vkEnumeratePhysicalDeviceGroups`. -/
  physicalDeviceGroupCount : Nat
  /-- The devices `vkEnumeratePhysicalDevices` has to offer, in enumeration order. -/
  physicalDevices : List VkPhysicalDevice
  /-- The field `deviceType` written by `vkGetPhysicalDeviceProperties`. -/
  deviceType : VkPhysicalDevice → Nat
  /-- The families written by `vkGetPhysicalDeviceQueueFamilyProperties`. -/
  queueFamilyProperties : VkPhysicalDevice → List VkQueueFamilyProperties
  /-- The flag written by `vkGetPhysicalDeviceSurfaceSupportKHR` for a family index. -/
  surfaceSupport : VkPhysicalDevice → Nat → VkSurfaceKHR → Bool
  /-- The extensions written by `vkEnumerateDeviceExtensionProperties`. -/
  deviceExtensionProperties : VkPhysicalDevice → List VkExtensionProperties
  /-- The snapshot written by `vkGetPhysicalDeviceSurfaceCapabilitiesKHR`. -/
  surfaceCapabilities : VkPhysicalDevice → VkSurfaceKHR → VkSurfaceCapabilitiesKHR
  /-- The pairs written by `vkGetPhysicalDeviceSurfaceFormatsKHR`. -/
  surfaceFormats : VkPhysicalDevice → VkSurfaceKHR → List VkSurfaceFormatKHR
  /-- The modes written by `vkGetPhysicalDeviceSurfacePresentModesKHR`. -/
  surfacePresentModes : VkPhysicalDevice → VkSurfaceKHR → List Nat

/-! ## `Application::findQueueFamilies` -/

/-- The body of the `for` loop of `findQueueFamilies`, from counter value `i`
on: `rest` holds the families at the indices `i, i + 1, ...`, and
`presentSupport i` is the flag the runtime writes for family `i`.  An
assignment to a field is not guarded by the field being unset; the loop is left
as soon as both fields are set.  The counter is an `int` that is stored into a
`std::optional<uint32_t>`; the runtime reports the number of families as a
`uint32_t`, and below `2^31` families the counter does not wrap and the
conversion keeps its value, so the counter is a natural number here. -/
def findQueueFamiliesLoop (presentSupport : Nat → Bool) :
    List VkQueueFamilyProperties → Nat → QueueFamilyIndices → QueueFamilyIndices
  | [], _, indices => indices
  | family :: rest, i, indices =>
    let indices₁ : QueueFamilyIndices :=
      if family.queueFlags &&& VK_QUEUE_GRAPHICS_BIT ≠ 0 then
        { indices with graphicsFamily := some i }
      else indices
    let indices₂ : QueueFamilyIndices :=
      if presentSupport i then { indices₁ with presentFamily := some i } else indices₁
    if indices₂.isComplete then indices₂
    else findQueueFamiliesLoop presentSupport rest (i + 1) indices₂

/-- The scan of `findQueueFamilies` over a queue-family list and a
surface-support predicate, both fields unset at the start. -/
def scanQueueFamilies (queueFamilies : List VkQueueFamilyProperties)
    (presentSupport : Nat → Bool) : QueueFamilyIndices :=
  findQueueFamiliesLoop presentSupport queueFamilies 0
    { graphicsFamily := none, presentFamily := none }

def findQueueFamilies (rt : Runtime) (physicalDevice : VkPhysicalDevice)
    (surface : VkSurfaceKHR) : QueueFamilyIndices :=
  scanQueueFamilies (rt.queueFamilyProperties physicalDevice)
    (fun i => rt.surfaceSupport physicalDevice i surface)

/-! ## `Application::checkDeviceExtensionSupport` -/

/-- Insertion into a `std::unordered_set<std::string>`, kept as the list of its
distinct elements: a key already present is not inserted again. -/
def unorderedSetInsert (s : List String) (key : String) : List String :=
  if key ∈ s then s else s ++ [key]

/-- Removal from a `std::unordered_set<std::string>`: the element equal to the key,
if there is one, is removed. -/
def unorderedSetErase (s : List String) (key : String) : List String :=
  s.filter (fun x => x != key)

def checkDeviceExtensionSupport (rt : Runtime) (physicalDevice : VkPhysicalDevice)
    (requiredExtensions : List String) : Bool :=
  let availableExtensions := rt.deviceExtensionProperties physicalDevice
  let requiredExtensionSet := requiredExtensions.foldl unorderedSetInsert []
  let remaining :=
    availableExtensions.foldl
      (fun s extension => unorderedSetErase s extension.extensionName)
      requiredExtensionSet
  remaining.isEmpty

/-! ## `Application::querySwapchainSupport` -/

def querySwapchainSupport (rt : Runtime) (physicalDevice : VkPhysicalDevice)
    (surface : VkSurfaceKHR) : SwapchainSupportDetails :=
  let formatCount := (rt.surfaceFormats physicalDevice surface).length
  let presentModeCount := (rt.surfacePresentModes physicalDevice surface).length
  { capabilities := rt.surfaceCapabilities physicalDevice surface
    formats := if formatCount ≠ 0 then rt.surfaceFormats physicalDevice surface else []
    presentModes :=
      if presentModeCount ≠ 0 then rt.surfacePresentModes physicalDevice surface else [] }

/-! ## `Application::mostSuitableDevice` -/

/-- The lambda `score` of `mostSuitableDevice`: `none` for an excluded device. -/
def score (rt : Runtime) (surface : VkSurfaceKHR) (requiredExtensions : List String)
    (device : VkPhysicalDevice) : Option Int :=
  let indices := findQueueFamilies rt device surface
  let extensionsSupported := checkDeviceExtensionSupport rt device requiredExtensions
  let swapchainAdequate :=
    if extensionsSupported then
      let details := querySwapchainSupport rt device surface
      !details.formats.isEmpty && !details.presentModes.isEmpty
    else false
  if !indices.isComplete || !extensionsSupported || !swapchainAdequate then none
  else some (if rt.deviceType device = VK_PHYSICAL_DEVICE_TYPE_DISCRETE_GPU then 1 else 0)

/-- Insertion into a `std::set` with comparison `comp`, kept as the sequence of
its elements in iteration order (ascending for `comp`).  An element equivalent
to one already present (neither compares below the other) is not inserted. -/
def setInsert {α : Type} (comp : α → α → Bool) (x : α) : List α → List α
  | [] => [x]
  | y :: ys =>
    if comp x y then x :: y :: ys
    else if comp y x then y :: setInsert comp x ys
    else y :: ys

/-- The comparison given to `deviceList`: only the scores are compared. -/
def deviceListComp (a b : VkPhysicalDevice × Int) : Bool := decide (a.2 < b.2)

/-- The set `deviceList` after the `for` loop over `physicalDevices`. -/
def deviceList (rt : Runtime) (physicalDevices : List VkPhysicalDevice)
    (surface : VkSurfaceKHR) (requiredExtensions : List String) :
    List (VkPhysicalDevice × Int) :=
  physicalDevices.foldl
    (fun acc device =>
      match score rt surface requiredExtensions device with
      | some deviceScore => setInsert deviceListComp (device, deviceScore) acc
      | none => acc)
    []

/-- The result is the first element of the set in iteration order, `begin()`. -/
def mostSuitableDevice (rt : Runtime) (physicalDevices : List VkPhysicalDevice)
    (surface : VkSurfaceKHR) (requiredExtensions : List String) :
    Option VkPhysicalDevice :=
  let l := deviceList rt physicalDevices surface requiredExtensions
  if l.length > 0 then l.head?.map Prod.fst else none

/-! ## `Application::pickPhysicalDevice` -/

/-- The member `m_deviceExtensions`. -/
def m_deviceExtensions : List String := [VK_KHR_SWAPCHAIN_EXTENSION_NAME]

/-- The vector `physicalDevices` of `pickPhysicalDevice`: `deviceCount` null
handles, of which `vkEnumeratePhysicalDevices` overwrites as many as it has
devices for. -/
def enumeratePhysicalDevices (rt : Runtime) (deviceCount : Nat) : List VkPhysicalDevice :=
  rt.physicalDevices.take deviceCount ++
    List.replicate (deviceCount - rt.physicalDevices.length) VK_NULL_HANDLE

/-- The value stored in `m_physicalDevice`, or the message of the exception thrown. -/
def pickPhysicalDevice (rt : Runtime) (m_surface : VkSurfaceKHR) :
    Except String VkPhysicalDevice :=
  let deviceCount := rt.physicalDeviceGroupCount
  if deviceCount = 0 then Except.error "No GPU with vulkan support"
  else
    let physicalDevices := enumeratePhysicalDevices rt deviceCount
    let physicalDevice :=
      match mostSuitableDevice rt physicalDevices m_surface m_deviceExtensions with
      | some mostSuitable => mostSuitable
      | none => VK_NULL_HANDLE
    if physicalDevice = VK_NULL_HANDLE then Except.error "No suitable GPU found"
    else Except.ok physicalDevice

/-! ## Swapchain parameters -/

/-- The `for` loop of `chooseSwapSurfaceFormat`: the first element with the
preferred format and colour space, if there is one. -/
def chooseSwapSurfaceFormatLoop : List VkSurfaceFormatKHR → Option VkSurfaceFormatKHR
  | [] => none
  | format :: rest =>
    if format.format = VK_FORMAT_B8G8R8A8_SRGB ∧
        format.colorSpace = VK_COLOR_SPACE_SRGB_NONLINEAR_KHR then some format
    else chooseSwapSurfaceFormatLoop rest

/-- The result is `none` where the source reads `formats[0]` of an empty vector. -/
def chooseSwapSurfaceFormat (formats : List VkSurfaceFormatKHR) :
    Option VkSurfaceFormatKHR :=
  match chooseSwapSurfaceFormatLoop formats with
  | some format => some format
  | none => formats[0]?

def chooseSwapPresentMode : List Nat → Nat
  | [] => VK_PRESENT_MODE_FIFO_KHR
  | mode :: rest =>
    if mode = VK_PRESENT_MODE_MAILBOX_KHR then mode else chooseSwapPresentMode rest

/-- The library function `std::clamp(v, lo, hi)`. -/
def stdClamp (v lo hi : Nat) : Nat :=
  if v < lo then lo else if hi < v then hi else v

def chooseSwapExtent (capabilities : VkSurfaceCapabilitiesKHR) (windowSize : Size) :
    VkExtent2D :=
  if capabilities.currentExtent.width ≠ UINT32_MAX then capabilities.currentExtent
  else
    let actualExtent : VkExtent2D :=
      { width := windowSize.width, height := windowSize.height }
    let actualExtent₁ : VkExtent2D :=
      { actualExtent with
        width := stdClamp actualExtent.width capabilities.minImageExtent.width
          capabilities.maxImageExtent.width }
    let actualExtent₂ : VkExtent2D :=
      { actualExtent₁ with
        height := stdClamp actualExtent₁.height capabilities.minImageExtent.height
          capabilities.maxImageExtent.height }
    actualExtent₂

/-! ## Words of the specification -/

/-- The extension names a device advertises. -/
def advertisedExtensionNames (rt : Runtime) (physicalDevice : VkPhysicalDevice) :
    List String :=
  (rt.deviceExtensionProperties physicalDevice).map (fun extension => extension.extensionName)

/-- The preferred pair of format and colour space. -/
def preferredSurfaceFormat : VkSurfaceFormatKHR :=
  { format := VK_FORMAT_B8G8R8A8_SRGB, colorSpace := VK_COLOR_SPACE_SRGB_NONLINEAR_KHR }

/-- The extent that stands for "undefined": both axes hold the largest `uint32_t`. -/
def undefinedExtent : VkExtent2D := { width := UINT32_MAX, height := UINT32_MAX }

/-- A device passes the filter of the selector: its queue families are complete,
every required extension name is advertised, and the surface has at least one
format and at least one present mode on it. -/
def Qualifies (rt : Runtime) (surface : VkSurfaceKHR) (requiredExtensions : List String)
    (device : VkPhysicalDevice) : Prop :=
  (findQueueFamilies rt device surface).isComplete = true ∧
  (∀ name ∈ requiredExtensions, name ∈ advertisedExtensionNames rt device) ∧
  rt.surfaceFormats device surface ≠ [] ∧
  rt.surfacePresentModes device surface ≠ []

/-- The device is reported as a discrete GPU. -/
def IsDiscrete (rt : Runtime) (device : VkPhysicalDevice) : Prop :=
  rt.deviceType device = VK_PHYSICAL_DEVICE_TYPE_DISCRETE_GPU

/-! ## Concrete inputs -/

/-- A runtime with qualifying integrated GPUs `1` and `4`, a qualifying discrete
GPU `2`, an integrated GPU `3` that does not advertise the swapchain extension,
and a discrete GPU `5` without present modes.  Every device has three queue
families, of which `0` and `1` accept graphics commands and `1` can present. -/
def exampleRuntime : Runtime where
  physicalDeviceGroupCount := 1
  physicalDevices := [1]
  deviceType := fun d =>
    if d = 2 ∨ d = 5 then VK_PHYSICAL_DEVICE_TYPE_DISCRETE_GPU
    else VK_PHYSICAL_DEVICE_TYPE_INTEGRATED_GPU
  queueFamilyProperties := fun _ => [⟨1, 1⟩, ⟨3, 2⟩, ⟨4, 1⟩]
  surfaceSupport := fun _ i _ => decide (i = 1)
  deviceExtensionProperties := fun d =>
    if d = 3 then [⟨"VK_KHR_maintenance1", 2⟩]
    else [⟨"VK_KHR_maintenance1", 2⟩, ⟨"VK_KHR_swapchain", 70⟩]
  surfaceCapabilities := fun _ _ =>
    { minImageCount := 2, maxImageCount := 8, currentExtent := ⟨640, 480⟩,
      minImageExtent := ⟨1, 1⟩, maxImageExtent := ⟨4096, 4096⟩, currentTransform := 1 }
  surfaceFormats := fun _ _ => [⟨44, 0⟩, ⟨50, 0⟩]
  surfacePresentModes := fun d _ => if d = 5 then [] else [2, 1]

/-- The runtime `exampleRuntime` with the integrated GPU `3` as its only device. -/
def exampleRuntimeNoSwapchain : Runtime :=
  { exampleRuntime with physicalDevices := [3] }

/-- The runtime `exampleRuntime` with the surface presentable from family `0` only. -/
def exampleRuntimePresentFirst : Runtime :=
  { exampleRuntime with surfaceSupport := fun _ i _ => decide (i = 0) }

/-- A snapshot whose current extent has the largest `uint32_t` as its width only. -/
def widthOnlyCapabilities : VkSurfaceCapabilitiesKHR :=
  { minImageCount := 2, maxImageCount := 8, currentExtent := ⟨UINT32_MAX, 600⟩,
    minImageExtent := ⟨1, 1⟩, maxImageExtent := ⟨4096, 4096⟩, currentTransform := 1 }

/-- A snapshot whose current extent is fixed by the windowing system. -/
def fixedCapabilities : VkSurfaceCapabilitiesKHR :=
  { minImageCount := 2, maxImageCount := 8, currentExtent := ⟨640, 480⟩,
    minImageExtent := ⟨1, 1⟩, maxImageExtent := ⟨4096, 4096⟩, currentTransform := 1 }

/-- A snapshot whose current extent is undefined. -/
def undefinedCapabilities : VkSurfaceCapabilitiesKHR :=
  { minImageCount := 2, maxImageCount := 8, currentExtent := ⟨UINT32_MAX, UINT32_MAX⟩,
    minImageExtent := ⟨320, 200⟩, maxImageExtent := ⟨4096, 2160⟩, currentTransform := 1 }

/-! ## Words of the specification on queue families -/

/-- Family `j` of the device exists and has the graphics capability bit. -/
def SupportsGraphics (rt : Runtime) (physicalDevice : VkPhysicalDevice) (j : Nat) : Prop :=
  ∃ h : j < (rt.queueFamilyProperties physicalDevice).length,
    ((rt.queueFamilyProperties physicalDevice).get ⟨j, h⟩).queueFlags.testBit 0 = true

/-- Family `j` of the device exists and the surface-support query marks it as
supported for the surface. -/
def SupportsPresent (rt : Runtime) (physicalDevice : VkPhysicalDevice)
    (surface : VkSurfaceKHR) (j : Nat) : Prop :=
  j < (rt.queueFamilyProperties physicalDevice).length ∧
    rt.surfaceSupport physicalDevice j surface = true

/-- The scan examines family `j`: the family exists, and the families before it
do not hold both a graphics-capable and a present-capable one. -/
def Examined (rt : Runtime) (physicalDevice : VkPhysicalDevice)
    (surface : VkSurfaceKHR) (j : Nat) : Prop :=
  j < (rt.queueFamilyProperties physicalDevice).length ∧
    ¬ ((∃ a, a < j ∧ SupportsGraphics rt physicalDevice a) ∧
       (∃ b, b < j ∧ SupportsPresent rt physicalDevice surface b))

/-! ## Auxiliary functions of the proofs -/

/-- The largest index below `m` at which `f` is true. -/
def lastBelow (f : Nat → Bool) : Nat → Option Nat
  | 0 => none
  | m + 1 => if f m then some m else lastBelow f m

/-- The test the loop of `findQueueFamilies` makes on family `j`; false beyond
the end of the list. -/
def graphicsBit (queueFamilies : List VkQueueFamilyProperties) (j : Nat) : Bool :=
  match queueFamilies[j]? with
  | some family => decide (family.queueFlags &&& VK_QUEUE_GRAPHICS_BIT ≠ 0)
  | none => false

/-- Both fields are set once the scan has passed the families below `k`. -/
def bothBelow (gb ps : Nat → Bool) (k : Nat) : Bool :=
  (lastBelow gb k).isSome && (lastBelow ps k).isSome

/-- The first device of the list, in enumeration order, whose score is `v`. -/
def firstWithScore (rt : Runtime) (surface : VkSurfaceKHR) (requiredExtensions : List String)
    (v : Int) (physicalDevices : List VkPhysicalDevice) : Option VkPhysicalDevice :=
  physicalDevices.find? (fun d => decide (score rt surface requiredExtensions d = some v))

instance instDecidableQualifies (rt : Runtime) (surface : VkSurfaceKHR)
    (requiredExtensions : List String) (device : VkPhysicalDevice) :
    Decidable (Qualifies rt surface requiredExtensions device) :=
  inferInstanceAs (Decidable
    ((findQueueFamilies rt device surface).isComplete = true ∧
     (∀ name ∈ requiredExtensions, name ∈ advertisedExtensionNames rt device) ∧
     rt.surfaceFormats device surface ≠ [] ∧
     rt.surfacePresentModes device surface ≠ []))

instance instDecidableIsDiscrete (rt : Runtime) (device : VkPhysicalDevice) :
    Decidable (IsDiscrete rt device) :=
  inferInstanceAs (Decidable (rt.deviceType device = VK_PHYSICAL_DEVICE_TYPE_DISCRETE_GPU))

/-! ## Create-info records and their constants -/

def VK_SHARING_MODE_EXCLUSIVE : Nat := 0
def VK_SHARING_MODE_CONCURRENT : Nat := 1
def VK_IMAGE_USAGE_COLOR_ATTACHMENT_BIT : Nat := 16
def VK_COMPOSITE_ALPHA_OPAQUE_BIT_KHR : Nat := 1
def VK_TRUE : Nat := 1

def VK_EXT_DEBUG_UTILS_EXTENSION_NAME : String := "VK_EXT_debug_utils"

/-- The member `m_validationLayers`. -/
def m_validationLayers : List String := ["VK_LAYER_KHRONOS_validation"]

/-- The template `Size<T>` of the window interface, at `T = int`. -/
structure SizeInt where
  width : Int
  height : Int
deriving DecidableEq, Repr

/-- The conversion `static_cast<uint32_t>` of an `int`. -/
def castUInt32 (x : Int) : Nat := (x % (2 ^ 32 : Int)).toNat

structure VkLayerProperties where
  layerName : String
  specVersion : Nat
deriving DecidableEq, Repr

/-- The fields of `VkInstanceCreateInfo` that `createVulkanInstance` sets from
its inputs.  A pointer to an array is `some` of the array, the null pointer is
`none`; `pNext` records whether the debug-messenger create-info is chained.
The counts are sizes of short vectors, far below `2^32`. -/
structure VkInstanceCreateInfo where
  enabledLayerCount : Nat
  ppEnabledLayerNames : Option (List String)
  enabledExtensionCount : Nat
  ppEnabledExtensionNames : Option (List String)
  pNext : Bool
deriving DecidableEq, Repr

/-- The fields `queueFamilyIndex` and `queueCount` of a queue-creation request.
Every request points to the same priority `1.0f`. -/
structure VkDeviceQueueCreateInfo where
  queueFamilyIndex : Nat
  queueCount : Nat
deriving DecidableEq, Repr

structure VkDeviceCreateInfo where
  queueCreateInfoCount : Nat
  pQueueCreateInfos : Option (List VkDeviceQueueCreateInfo)
  enabledExtensionCount : Nat
  ppEnabledExtensionNames : Option (List String)
  enabledLayerCount : Nat
  ppEnabledLayerNames : Option (List String)
deriving DecidableEq, Repr

structure VkSwapchainCreateInfoKHR where
  surface : Nat
  minImageCount : Nat
  imageFormat : Nat
  imageColorSpace : Nat
  imageExtent : VkExtent2D
  imageArrayLayers : Nat
  imageUsage : Nat
  imageSharingMode : Nat
  queueFamilyIndexCount : Nat
  pQueueFamilyIndices : Option (List Nat)
  preTransform : Nat
  compositeAlpha : Nat
  presentMode : Nat
  clipped : Nat
  oldSwapchain : Nat
deriving DecidableEq, Repr

/-! ## `Application::checkValidationLayerSupport` -/

/-- The inner loop of `checkValidationLayerSupport`: `strcmp` returns `0` exactly
on equal strings. -/
def layerFound (layerName : String) : List VkLayerProperties → Bool
  | [] => false
  | layerProperties :: rest =>
    if layerName = layerProperties.layerName then true else layerFound layerName rest

/-- The function `checkValidationLayerSupport` on the requested layer names (the
member `m_validationLayers`) and the layers the runtime enumerates. -/
def checkValidationLayerSupport (availableLayers : List VkLayerProperties) :
    List String → Bool
  | [] => true
  | layerName :: rest =>
    if !layerFound layerName availableLayers then false
    else checkValidationLayerSupport availableLayers rest

/-! ## `Application::getRequiredExtensions` and the instance create-info -/

/-- The function `getRequiredExtensions` on the names returned by
`glfwGetRequiredInstanceExtensions`. -/
def getRequiredExtensions (m_enableValidationLayers : Bool) (glfwExtensions : List String) :
    List String :=
  let extensions := glfwExtensions
  if m_enableValidationLayers then extensions ++ [VK_EXT_DEBUG_UTILS_EXTENSION_NAME]
  else extensions

/-- The create-info that `createVulkanInstance` passes to `vkCreateInstance`. -/
def instanceCreateInfo (m_enableValidationLayers : Bool)
    (validationLayers glfwExtensions : List String) : VkInstanceCreateInfo :=
  let createInfo : VkInstanceCreateInfo :=
    { enabledLayerCount := 0, ppEnabledLayerNames := none, enabledExtensionCount := 0,
      ppEnabledExtensionNames := none, pNext := false }
  let requiredExtensions := getRequiredExtensions m_enableValidationLayers glfwExtensions
  let createInfo₁ : VkInstanceCreateInfo :=
    { createInfo with
      enabledExtensionCount := requiredExtensions.length
      ppEnabledExtensionNames := some requiredExtensions }
  if m_enableValidationLayers then
    { createInfo₁ with
      enabledLayerCount := validationLayers.length
      ppEnabledLayerNames := some validationLayers
      pNext := true }
  else
    { createInfo₁ with
      enabledLayerCount := 0
      ppEnabledExtensionNames := none
      pNext := false }

/-! ## The create-info of `Application::createLogicalDevice` -/

/-- The comparison `std::less<uint32_t>` of `uniqueQueueFamilies`. -/
def uint32Less (a b : Nat) : Bool := decide (a < b)

/-- The create-info that `createLogicalDevice` passes to `vkCreateDevice`; `none`
where `value()` is called on an unset index and throws. -/
def deviceCreateInfo (m_enableValidationLayers : Bool) (validationLayers : List String)
    (indices : QueueFamilyIndices) : Option VkDeviceCreateInfo :=
  match indices.graphicsFamily, indices.presentFamily with
  | some graphicsFamily, some presentFamily =>
    let uniqueQueueFamilies :=
      setInsert uint32Less presentFamily (setInsert uint32Less graphicsFamily [])
    let queueCreateInfos : List VkDeviceQueueCreateInfo :=
      uniqueQueueFamilies.map
        (fun queueFamily => { queueFamilyIndex := queueFamily, queueCount := 1 })
    some
      { queueCreateInfoCount := queueCreateInfos.length
        pQueueCreateInfos := some queueCreateInfos
        enabledExtensionCount := m_deviceExtensions.length
        ppEnabledExtensionNames := some m_deviceExtensions
        enabledLayerCount := if m_enableValidationLayers then validationLayers.length else 0
        ppEnabledLayerNames := if m_enableValidationLayers then some validationLayers else none }
  | _, _ => none

/-! ## The create-info of `Application::createSwapchain` -/

/-- The initialiser of `imageCount` in `createSwapchain`.  It reads `imageCount`
itself before the variable has a value; `indeterminate` is the value that read
yields.  The sum is a `uint32_t`. -/
def swapchainImageCount (capabilities : VkSurfaceCapabilitiesKHR) (indeterminate : Nat) :
    Nat :=
  (capabilities.minImageCount +
    (if capabilities.maxImageCount = 0 ∨ indeterminate < capabilities.maxImageCount then 1
     else 0)) % 2 ^ 32

/-- The create-info that `createSwapchain` passes to `vkCreateSwapchainKHR`; `none`
where `formats[0]` is read from an empty vector or `value()` is called on an
unset index. -/
def swapchainCreateInfo (m_surface : VkSurfaceKHR) (swapchainSupport : SwapchainSupportDetails)
    (framebufferSize : SizeInt) (indeterminate : Nat) (indices : QueueFamilyIndices) :
    Option VkSwapchainCreateInfoKHR :=
  match chooseSwapSurfaceFormat swapchainSupport.formats with
  | none => none
  | some surfaceFormat =>
    let presentMode := chooseSwapPresentMode swapchainSupport.presentModes
    let extent :=
      chooseSwapExtent swapchainSupport.capabilities
        { width := castUInt32 framebufferSize.width,
          height := castUInt32 framebufferSize.height }
    let imageCount := swapchainImageCount swapchainSupport.capabilities indeterminate
    match indices.graphicsFamily, indices.presentFamily with
    | some graphicsFamily, some presentFamily =>
      let queueFamilyIndices := [graphicsFamily, presentFamily]
      let createInfo : VkSwapchainCreateInfoKHR :=
        { surface := m_surface
          minImageCount := imageCount
          imageFormat := surfaceFormat.format
          imageColorSpace := surfaceFormat.colorSpace
          imageExtent := extent
          imageArrayLayers := 1
          imageUsage := VK_IMAGE_USAGE_COLOR_ATTACHMENT_BIT
          imageSharingMode := 0
          queueFamilyIndexCount := 0
          pQueueFamilyIndices := none
          preTransform := swapchainSupport.capabilities.currentTransform
          compositeAlpha := VK_COMPOSITE_ALPHA_OPAQUE_BIT_KHR
          presentMode := presentMode
          clipped := VK_TRUE
          oldSwapchain := VK_NULL_HANDLE }
      if indices.graphicsFamily ≠ indices.presentFamily then
        some
          { createInfo with
            imageSharingMode := VK_SHARING_MODE_CONCURRENT
            queueFamilyIndexCount := 2
            pQueueFamilyIndices := some queueFamilyIndices }
      else
        some
          { createInfo with
            imageSharingMode := VK_SHARING_MODE_EXCLUSIVE
            queueFamilyIndexCount := 0
            pQueueFamilyIndices := none }
    | _, _ => none

/-! ## Concrete inputs for the create-infos -/

/-- A snapshot whose minimum and maximum image count are both 3. -/
def tightCapabilities : VkSurfaceCapabilitiesKHR :=
  { minImageCount := 3, maxImageCount := 3, currentExtent := ⟨640, 480⟩,
    minImageExtent := ⟨1, 1⟩, maxImageExtent := ⟨4096, 4096⟩, currentTransform := 1 }

/-- A snapshot without an upper bound on the image count whose minimum image
count is the largest `uint32_t`. -/
def wrappingCapabilities : VkSurfaceCapabilitiesKHR :=
  { minImageCount := 2 ^ 32 - 1, maxImageCount := 0, currentExtent := ⟨640, 480⟩,
    minImageExtent := ⟨1, 1⟩, maxImageExtent := ⟨4096, 4096⟩, currentTransform := 1 }

/-- A snapshot without an upper bound on the image count. -/
def unboundedCapabilities : VkSurfaceCapabilitiesKHR :=
  { minImageCount := 2, maxImageCount := 0, currentExtent := ⟨640, 480⟩,
    minImageExtent := ⟨1, 1⟩, maxImageExtent := ⟨4096, 4096⟩, currentTransform := 1 }

/-- The swapchain support of a device with the capabilities `tightCapabilities`. -/
def tightSwapchainSupport : SwapchainSupportDetails :=
  { capabilities := tightCapabilities, formats := [⟨44, 0⟩, ⟨50, 0⟩], presentModes := [2, 1] }

/-- The instance extensions a windowing library asks for on an X11 desktop. -/
def exampleGlfwExtensions : List String := ["VK_KHR_surface", "VK_KHR_xcb_surface"]

/-! ## The resource acquisition pipeline: `init` and `cleanup` -/

/-- The kinds of object the program creates and destroys. -/
inductive Resource
  | vulkanInstance
  | debugMessenger
  | surface
  | device
  | swapchain
  | imageView
  | renderPass
  | shaderModule
  | pipelineLayout
  | graphicsPipeline
deriving DecidableEq, Repr

/-- A call the program issues: a creation call together with the handle it
returned (`none` when it did not succeed), or a destruction call together with
the handle passed to it. -/
inductive Call
  | create (resource : Resource) (result : Option Nat)
  | destroy (resource : Resource) (handle : Nat)
deriving DecidableEq, Repr

/-- The answers of the graphics runtime, of the windowing library and of the
file system to the calls by which the program creates objects. -/
structure Driver where
  /-- The layers written by `vkEnumerateInstanceLayerProperties`. -/
  instanceLayerProperties : List VkLayerProperties
  /-- The names returned by `glfwGetRequiredInstanceExtensions`. -/
  glfwRequiredInstanceExtensions : List String
  vkCreateInstance : VkInstanceCreateInfo → Option Nat
  /-- The helper `CreateDebugUtilsMessengerEXT`, on the instance. -/
  createDebugUtilsMessengerEXT : Nat → Option Nat
  /-- The call `glfwCreateWindowSurface` of `MainWindow::createSurface`, on the instance. -/
  glfwCreateWindowSurface : Nat → Option Nat
  vkCreateDevice : VkPhysicalDevice → VkDeviceCreateInfo → Option Nat
  /-- The queue of a device and a family index written by `vkGetDeviceQueue`. -/
  vkGetDeviceQueue : Nat → Nat → Nat
  /-- The size returned by `MainWindow::getFramebufferSize`. -/
  framebufferSize : SizeInt
  /-- The value the initialiser of `imageCount` reads from `imageCount` itself. -/
  indeterminateImageCount : Nat
  vkCreateSwapchainKHR : Nat → VkSwapchainCreateInfoKHR → Option Nat
  /-- The images of a swapchain written by `vkGetSwapchainImagesKHR`. -/
  swapchainImages : Nat → List Nat
  /-- The call `vkCreateImageView`, on the device and the image. -/
  vkCreateImageView : Nat → Nat → Option Nat
  vkCreateRenderPass : Nat → Option Nat
  /-- The helper `Utils::readByteCode`, on the file name. -/
  readByteCode : String → Option (List Nat)
  /-- The call `vkCreateShaderModule`, on the device and the code. -/
  vkCreateShaderModule : Nat → List Nat → Option Nat
  vkCreatePipelineLayout : Nat → Option Nat
  vkCreateGraphicsPipelines : Nat → Option Nat

/-- The members of `Application` that `init` and `cleanup` use, and the calls
issued so far.  The members `m_validationLayers` and `m_deviceExtensions` are
the constants of the same names. -/
structure Application where
  m_enableValidationLayers : Bool
  m_vulkanInstance : Nat
  debugMessenger : Nat
  m_surface : VkSurfaceKHR
  m_physicalDevice : VkPhysicalDevice
  m_device : Nat
  m_graphicsQueue : Nat
  m_presentQueue : Nat
  m_swapchain : Nat
  m_swapchainImages : List Nat
  m_swapchainImageFormat : Nat
  m_swapchainExtent : VkExtent2D
  m_swapchainImageViews : List Nat
  m_renderPass : Nat
  m_pipelineLayout : Nat
  m_graphicsPipeline : Nat
  calls : List Call

/-- The state after the constructor `Application::Application` with an
initialised window: `m_physicalDevice` is the null handle, the vectors are empty,
no call has been issued, and every other member keeps the value `indeterminate`
has for it, since the constructor gives it none.  The flag
`m_enableValidationLayers` is fixed when the program is compiled. -/
def construct (m_enableValidationLayers : Bool) (indeterminate : Application) : Application :=
  { indeterminate with
    m_enableValidationLayers := m_enableValidationLayers
    m_physicalDevice := VK_NULL_HANDLE
    m_swapchainImages := []
    m_swapchainImageViews := []
    calls := [] }

/-- The result of a member function that may throw: the state it leaves, or
the message of the exception together with the state at the throw. -/
abbrev Step := Except (String × Application) Application

def createVulkanInstance (drv : Driver) (app : Application) : Step :=
  if app.m_enableValidationLayers &&
      !checkValidationLayerSupport drv.instanceLayerProperties m_validationLayers then
    Except.error ("Validation layers requested but no available", app)
  else
    let createInfo :=
      instanceCreateInfo app.m_enableValidationLayers m_validationLayers
        drv.glfwRequiredInstanceExtensions
    match drv.vkCreateInstance createInfo with
    | some vulkanInstance =>
      Except.ok
        { app with
          m_vulkanInstance := vulkanInstance
          calls := app.calls ++ [Call.create Resource.vulkanInstance (some vulkanInstance)] }
    | none =>
      Except.error ("Failed to create vulkan instance",
        { app with calls := app.calls ++ [Call.create Resource.vulkanInstance none] })

def setupDebugMessenger (drv : Driver) (app : Application) : Step :=
  if !app.m_enableValidationLayers then Except.ok app
  else
    match drv.createDebugUtilsMessengerEXT app.m_vulkanInstance with
    | some messenger =>
      Except.ok
        { app with
          debugMessenger := messenger
          calls := app.calls ++ [Call.create Resource.debugMessenger (some messenger)] }
    | none =>
      Except.error ("Failed to set up debug messenger",
        { app with calls := app.calls ++ [Call.create Resource.debugMessenger none] })

def createSurface (drv : Driver) (app : Application) : Step :=
  match drv.glfwCreateWindowSurface app.m_vulkanInstance with
  | some surface =>
    Except.ok
      { app with
        m_surface := surface
        calls := app.calls ++ [Call.create Resource.surface (some surface)] }
  | none =>
    Except.error ("Failed to create window surface",
      { app with calls := app.calls ++ [Call.create Resource.surface none] })

/-- The member function `pickPhysicalDevice` on the state of the application. -/
def selectPhysicalDevice (rt : Runtime) (app : Application) : Step :=
  match pickPhysicalDevice rt app.m_surface with
  | Except.ok physicalDevice => Except.ok { app with m_physicalDevice := physicalDevice }
  | Except.error message => Except.error (message, app)

def createLogicalDevice (drv : Driver) (rt : Runtime) (app : Application) : Step :=
  let indices := findQueueFamilies rt app.m_physicalDevice app.m_surface
  match indices.graphicsFamily, indices.presentFamily,
      deviceCreateInfo app.m_enableValidationLayers m_validationLayers indices with
  | some graphicsFamily, some presentFamily, some createInfo =>
    match drv.vkCreateDevice app.m_physicalDevice createInfo with
    | some device =>
      Except.ok
        { app with
          m_device := device
          m_graphicsQueue := drv.vkGetDeviceQueue device graphicsFamily
          m_presentQueue := drv.vkGetDeviceQueue device presentFamily
          calls := app.calls ++ [Call.create Resource.device (some device)] }
    | none =>
      Except.error ("Failed to create logical device",
        { app with calls := app.calls ++ [Call.create Resource.device none] })
  | _, _, _ => Except.error ("bad optional access", app)

def createSwapchain (drv : Driver) (rt : Runtime) (app : Application) : Step :=
  let swapchainSupport := querySwapchainSupport rt app.m_physicalDevice app.m_surface
  let indices := findQueueFamilies rt app.m_physicalDevice app.m_surface
  match swapchainCreateInfo app.m_surface swapchainSupport drv.framebufferSize
      drv.indeterminateImageCount indices with
  | some createInfo =>
    match drv.vkCreateSwapchainKHR app.m_device createInfo with
    | some swapchain =>
      Except.ok
        { app with
          m_swapchain := swapchain
          m_swapchainImages := drv.swapchainImages swapchain
          m_swapchainImageFormat := createInfo.imageFormat
          m_swapchainExtent := createInfo.imageExtent
          calls := app.calls ++ [Call.create Resource.swapchain (some swapchain)] }
    | none =>
      Except.error ("Failed to create swapchain",
        { app with calls := app.calls ++ [Call.create Resource.swapchain none] })
  | none => Except.error ("bad optional access", app)

/-- The member function `std::vector::resize` on a vector of handles: new
elements are null handles. -/
def vectorResize (v : List Nat) (n : Nat) : List Nat :=
  v.take n ++ List.replicate (n - v.length) VK_NULL_HANDLE

/-- The `for` loop of `createImageViews`, from counter value `i` on; `images`
holds the swapchain images at the indices `i, i + 1, ...`. -/
def createImageViewsLoop (drv : Driver) : List Nat → Nat → Application → Step
  | [], _, app => Except.ok app
  | image :: images, i, app =>
    match drv.vkCreateImageView app.m_device image with
    | some imageView =>
      createImageViewsLoop drv images (i + 1)
        { app with
          m_swapchainImageViews := app.m_swapchainImageViews.set i imageView
          calls := app.calls ++ [Call.create Resource.imageView (some imageView)] }
    | none =>
      Except.error ("Failed to create image view",
        { app with calls := app.calls ++ [Call.create Resource.imageView none] })

def createImageViews (drv : Driver) (app : Application) : Step :=
  let app₁ : Application :=
    { app with
      m_swapchainImageViews :=
        vectorResize app.m_swapchainImageViews app.m_swapchainImages.length }
  createImageViewsLoop drv app₁.m_swapchainImages 0 app₁

def createRenderPass (drv : Driver) (app : Application) : Step :=
  match drv.vkCreateRenderPass app.m_device with
  | some renderPass =>
    Except.ok
      { app with
        m_renderPass := renderPass
        calls := app.calls ++ [Call.create Resource.renderPass (some renderPass)] }
  | none =>
    Except.error ("Failed to create render pass",
      { app with calls := app.calls ++ [Call.create Resource.renderPass none] })

def createGraphicsPipeline (drv : Driver) (app : Application) : Step :=
  match drv.readByteCode "Basic.vert.spv", drv.readByteCode "Basic.frag.spv" with
  | some vertShaderCode, some fragShaderCode =>
    match drv.vkCreateShaderModule app.m_device vertShaderCode with
    | none =>
      Except.error ("Failed to create shader module",
        { app with calls := app.calls ++ [Call.create Resource.shaderModule none] })
    | some vertShaderModule =>
      let calls₁ := app.calls ++ [Call.create Resource.shaderModule (some vertShaderModule)]
      match drv.vkCreateShaderModule app.m_device fragShaderCode with
      | none =>
        Except.error ("Failed to create shader module",
          { app with calls := calls₁ ++ [Call.create Resource.shaderModule none] })
      | some fragShaderModule =>
        let calls₂ := calls₁ ++ [Call.create Resource.shaderModule (some fragShaderModule)]
        match drv.vkCreatePipelineLayout app.m_device with
        | none =>
          Except.error ("Failed to create pipeline layout",
            { app with calls := calls₂ ++ [Call.create Resource.pipelineLayout none] })
        | some pipelineLayout =>
          let calls₃ := calls₂ ++ [Call.create Resource.pipelineLayout (some pipelineLayout)]
          match drv.vkCreateGraphicsPipelines app.m_device with
          | none =>
            Except.error ("Failed to create graphics pipeline",
              { app with
                m_pipelineLayout := pipelineLayout
                calls := calls₃ ++ [Call.create Resource.graphicsPipeline none] })
          | some graphicsPipeline =>
            Except.ok
              { app with
                m_pipelineLayout := pipelineLayout
                m_graphicsPipeline := graphicsPipeline
                calls := calls₃ ++
                  [Call.create Resource.graphicsPipeline (some graphicsPipeline),
                   Call.destroy Resource.shaderModule fragShaderModule,
                   Call.destroy Resource.shaderModule vertShaderModule] }
  | _, _ => Except.error ("Failed to get shader code", app)

/-- The member functions `init` calls, in the order in which it calls them. -/
def stages (drv : Driver) (rt : Runtime) : List (Application → Step) :=
  [createVulkanInstance drv, setupDebugMessenger drv, createSurface drv,
   selectPhysicalDevice rt, createLogicalDevice drv rt, createSwapchain drv rt,
   createImageViews drv, createRenderPass drv, createGraphicsPipeline drv]

/-- Calls in sequence; the first exception ends the sequence. -/
def runStages : List (Application → Step) → Application → Step
  | [], app => Except.ok app
  | stage :: rest, app =>
    match stage app with
    | Except.ok app₁ => runStages rest app₁
    | Except.error e => Except.error e

def init (drv : Driver) (rt : Runtime) (app : Application) : Step :=
  runStages (stages drv rt) app

/-- The calls `cleanup` issues, in the order in which it issues them. -/
def cleanupCalls (app : Application) : List Call :=
  [Call.destroy Resource.graphicsPipeline app.m_graphicsPipeline,
   Call.destroy Resource.pipelineLayout app.m_pipelineLayout,
   Call.destroy Resource.renderPass app.m_renderPass] ++
  app.m_swapchainImageViews.map (fun imageView => Call.destroy Resource.imageView imageView) ++
  [Call.destroy Resource.device app.m_device] ++
  (if app.m_enableValidationLayers then
    [Call.destroy Resource.debugMessenger app.debugMessenger]
   else []) ++
  [Call.destroy Resource.surface app.m_surface,
   Call.destroy Resource.vulkanInstance app.m_vulkanInstance]

def cleanup (app : Application) : Application :=
  { app with calls := app.calls ++ cleanupCalls app }

/-! ## Words of the specification on acquisition and release -/

/-- The objects a sequence of calls acquires, in order: the handles returned
by its successful creation calls. -/
def acquired : List Call → List (Resource × Nat)
  | [] => []
  | Call.create resource (some handle) :: rest => (resource, handle) :: acquired rest
  | _ :: rest => acquired rest

/-- The objects a sequence of calls releases, in order. -/
def released : List Call → List (Resource × Nat)
  | [] => []
  | Call.destroy resource handle :: rest => (resource, handle) :: released rest
  | _ :: rest => released rest

/-- The state in which the destructor runs `cleanup` after a call of `init`. -/
def finalState : Step → Application
  | Except.ok app => app
  | Except.error (_, app) => app

/-- The message of the exception a call of `init` ended with, if it threw. -/
def thrown : Step → Option String
  | Except.ok _ => none
  | Except.error (message, _) => some message

/-! ## Concrete inputs for `init` and `cleanup` -/

/-- A driver under which every creation call succeeds and the swapchain has two
images, `41` and `42`. -/
def exampleDriver : Driver where
  instanceLayerProperties := [⟨"VK_LAYER_KHRONOS_validation", 1⟩]
  glfwRequiredInstanceExtensions := exampleGlfwExtensions
  vkCreateInstance := fun _ => some 10
  createDebugUtilsMessengerEXT := fun _ => some 11
  glfwCreateWindowSurface := fun _ => some 12
  vkCreateDevice := fun _ _ => some 13
  vkGetDeviceQueue := fun _ family => 50 + family
  framebufferSize := ⟨640, 480⟩
  indeterminateImageCount := 0
  vkCreateSwapchainKHR := fun _ _ => some 14
  swapchainImages := fun _ => [41, 42]
  vkCreateImageView := fun _ image => some (image - 20)
  vkCreateRenderPass := fun _ => some 15
  readByteCode := fun filename =>
    if filename = "Basic.vert.spv" then some [3, 2, 35, 7] else some [3, 2, 35, 7, 0, 0, 1, 0]
  vkCreateShaderModule := fun _ code => some (30 + code.length / 4)
  vkCreatePipelineLayout := fun _ => some 16
  vkCreateGraphicsPipelines := fun _ => some 17

/-- The driver `exampleDriver`, except that the creation of the swapchain fails. -/
def failingSwapchainDriver : Driver :=
  { exampleDriver with vkCreateSwapchainKHR := fun _ _ => none }

/-- The driver `exampleDriver`, except that the runtime enumerates no layer. -/
def noLayerDriver : Driver :=
  { exampleDriver with instanceLayerProperties := [] }

/-- Values of the members the constructor gives no value to. -/
def indeterminateApplication : Application :=
  { m_enableValidationLayers := false, m_vulkanInstance := 90, debugMessenger := 91,
    m_surface := 92, m_physicalDevice := 93, m_device := 94, m_graphicsQueue := 95,
    m_presentQueue := 96, m_swapchain := 97, m_swapchainImages := [],
    m_swapchainImageFormat := 0, m_swapchainExtent := ⟨0, 0⟩, m_swapchainImageViews := [],
    m_renderPass := 98, m_pipelineLayout := 99, m_graphicsPipeline := 100, calls := [] }

/-- Two runtimes report the same properties of a device with respect to a
surface: type, queue families, surface support of every family, extensions,
surface formats and present modes. -/
def SameProperties (rt rt' : Runtime) (surface : VkSurfaceKHR) (device : VkPhysicalDevice) :
    Prop :=
  rt'.deviceType device = rt.deviceType device ∧
  rt'.queueFamilyProperties device = rt.queueFamilyProperties device ∧
  (∀ i, rt'.surfaceSupport device i surface = rt.surfaceSupport device i surface) ∧
  rt'.deviceExtensionProperties device = rt.deviceExtensionProperties device ∧
  rt'.surfaceFormats device surface = rt.surfaceFormats device surface ∧
  rt'.surfacePresentModes device surface = rt.surfacePresentModes device surface

/-- The runtime `exampleRuntime` with another device list and other surface
capabilities, which the selection of a device does not read. -/
def exampleRuntimeOtherCapabilities : Runtime :=
  { exampleRuntime with
    physicalDevices := [2, 1]
    surfaceCapabilities := fun _ _ => undefinedCapabilities }

/-- The runtime `exampleRuntime` with a surface that no queue family can present to. -/
def exampleRuntimeNoPresent : Runtime :=
  { exampleRuntime with surfaceSupport := fun _ _ _ => false }

/-- A run of `init` under `exampleDriver` and `exampleRuntime`, with the
diagnostics flag given. -/
def exampleInit (m_enableValidationLayers : Bool) : Step :=
  init exampleDriver exampleRuntime (construct m_enableValidationLayers indeterminateApplication)

/-- A run of `init` with diagnostics enabled in which the creation of the
swapchain fails. -/
def failedSwapchainInit : Step :=
  init failingSwapchainDriver exampleRuntime (construct true indeterminateApplication)

/-! # Theorems -/

/-! ## Extension support -/

theorem mem_foldl_unorderedSetInsert (l : List String) :
    ∀ (s : List String) (x : String),
      x ∈ l.foldl unorderedSetInsert s ↔ x ∈ s ∨ x ∈ l := by
  induction l with
  | nil => intro s x; simp
  | cons a l ih =>
    intro s x
    rw [List.foldl_cons, ih]
    unfold unorderedSetInsert
    by_cases h : a ∈ s
    · simp only [h, if_true, List.mem_cons]
      constructor
      · rintro (h1 | h1)
        · exact Or.inl h1
        · exact Or.inr (Or.inr h1)
      · rintro (h1 | h1 | h1)
        · exact Or.inl h1
        · exact Or.inl (h1 ▸ h)
        · exact Or.inr h1
    · simp only [h, if_false, List.mem_append, List.mem_singleton, List.mem_cons]
      tauto

theorem mem_foldl_unorderedSetErase (l : List VkExtensionProperties) :
    ∀ (s : List String) (x : String),
      x ∈ l.foldl (fun s extension => unorderedSetErase s extension.extensionName) s ↔
        x ∈ s ∧ x ∉ l.map (fun extension => extension.extensionName) := by
  induction l with
  | nil => intro s x; simp
  | cons a l ih =>
    intro s x
    rw [List.foldl_cons, ih]
    unfold unorderedSetErase
    simp only [List.mem_filter, bne_iff_ne, ne_eq, List.map_cons, List.mem_cons, not_or]
    tauto

theorem checkDeviceExtensionSupport_eq_true_iff (rt : Runtime)
    (physicalDevice : VkPhysicalDevice) (requiredExtensions : List String) :
    checkDeviceExtensionSupport rt physicalDevice requiredExtensions = true ↔
      ∀ name ∈ requiredExtensions, name ∈ advertisedExtensionNames rt physicalDevice := by
  unfold checkDeviceExtensionSupport advertisedExtensionNames
  simp only [List.isEmpty_iff, List.eq_nil_iff_forall_not_mem, mem_foldl_unorderedSetErase,
    mem_foldl_unorderedSetInsert, List.not_mem_nil, false_or, not_and, not_not]

/-- C4: `checkDeviceExtensionSupport` is true exactly when every required name
occurs among the names the device advertises.  So it is true for an empty
required list, true when the required list is the advertised list, and false
when the required list is the advertised list followed by a name the device
does not advertise. -/
theorem checkDeviceExtensionSupport_iff_subset (rt : Runtime)
    (physicalDevice : VkPhysicalDevice) (requiredExtensions : List String) :
    (checkDeviceExtensionSupport rt physicalDevice requiredExtensions = true ↔
      ∀ name ∈ requiredExtensions, name ∈ advertisedExtensionNames rt physicalDevice) ∧
    checkDeviceExtensionSupport rt physicalDevice [] = true ∧
    checkDeviceExtensionSupport rt physicalDevice
      (advertisedExtensionNames rt physicalDevice) = true ∧
    (∀ unknown : String, unknown ∉ advertisedExtensionNames rt physicalDevice →
      checkDeviceExtensionSupport rt physicalDevice
        (advertisedExtensionNames rt physicalDevice ++ [unknown]) = false) := by
  refine ⟨checkDeviceExtensionSupport_eq_true_iff rt physicalDevice requiredExtensions,
    ?_, ?_, ?_⟩
  · rw [checkDeviceExtensionSupport_eq_true_iff]
    intro name h
    simp at h
  · rw [checkDeviceExtensionSupport_eq_true_iff]
    intro name h
    exact h
  · intro unknown hu
    rw [← Bool.not_eq_true, checkDeviceExtensionSupport_eq_true_iff]
    intro h
    exact hu (h unknown (by simp))

/-- C4, on the device `1` of `exampleRuntime`: the advertised names followed by
a name that is not advertised are not supported. -/
theorem checkDeviceExtensionSupport_iff_subset_witness :
    checkDeviceExtensionSupport exampleRuntime 1
      (advertisedExtensionNames exampleRuntime 1 ++ ["VK_KHR_unknown"]) = false :=
  (checkDeviceExtensionSupport_iff_subset exampleRuntime 1 []).2.2.2 "VK_KHR_unknown"
    (by decide)

/-! ## Swapchain parameters -/

theorem chooseSwapSurfaceFormatLoop_eq_some_of_mem (formats : List VkSurfaceFormatKHR)
    (h : preferredSurfaceFormat ∈ formats) :
    chooseSwapSurfaceFormatLoop formats = some preferredSurfaceFormat := by
  induction formats with
  | nil => simp at h
  | cons format rest ih =>
    unfold chooseSwapSurfaceFormatLoop
    by_cases hf : format.format = VK_FORMAT_B8G8R8A8_SRGB ∧
        format.colorSpace = VK_COLOR_SPACE_SRGB_NONLINEAR_KHR
    · rw [if_pos hf]
      obtain ⟨f, c⟩ := format
      obtain ⟨h1, h2⟩ := hf
      simp only at h1 h2
      subst h1 h2
      rfl
    · rw [if_neg hf]
      rcases List.mem_cons.1 h with h1 | h1
      · exact absurd (h1 ▸ ⟨rfl, rfl⟩) hf
      · exact ih h1

theorem chooseSwapSurfaceFormatLoop_eq_none_of_not_mem (formats : List VkSurfaceFormatKHR)
    (h : preferredSurfaceFormat ∉ formats) :
    chooseSwapSurfaceFormatLoop formats = none := by
  induction formats with
  | nil => rfl
  | cons format rest ih =>
    unfold chooseSwapSurfaceFormatLoop
    have hne : format ≠ preferredSurfaceFormat := fun he => h (he ▸ List.mem_cons_self _ _)
    have hrest : preferredSurfaceFormat ∉ rest := fun hm => h (List.mem_cons_of_mem _ hm)
    by_cases hf : format.format = VK_FORMAT_B8G8R8A8_SRGB ∧
        format.colorSpace = VK_COLOR_SPACE_SRGB_NONLINEAR_KHR
    · exfalso
      apply hne
      obtain ⟨f, c⟩ := format
      obtain ⟨h1, h2⟩ := hf
      simp only at h1 h2
      subst h1 h2
      rfl
    · rw [if_neg hf]
      exact ih hrest

theorem chooseSwapSurfaceFormat_of_ne_nil (formats : List VkSurfaceFormatKHR)
    (hne : formats ≠ []) :
    (preferredSurfaceFormat ∈ formats →
      chooseSwapSurfaceFormat formats = some preferredSurfaceFormat) ∧
    (preferredSurfaceFormat ∉ formats →
      chooseSwapSurfaceFormat formats = some (formats.head hne)) := by
  constructor
  · intro h
    unfold chooseSwapSurfaceFormat
    rw [chooseSwapSurfaceFormatLoop_eq_some_of_mem formats h]
  · intro h
    unfold chooseSwapSurfaceFormat
    rw [chooseSwapSurfaceFormatLoop_eq_none_of_not_mem formats h]
    cases formats with
    | nil => exact absurd rfl hne
    | cons a l => simp

/-- C7: on a non-empty list of supported surface formats, `chooseSwapSurfaceFormat`
returns the preferred pair (`VK_FORMAT_B8G8R8A8_SRGB`,
`VK_COLOR_SPACE_SRGB_NONLINEAR_KHR`) whenever that pair occurs anywhere in the
list, and the first element of the list whenever it does not. -/
theorem chooseSwapSurfaceFormat_preferred_or_first (formats : List VkSurfaceFormatKHR)
    (hne : formats ≠ []) :
    (preferredSurfaceFormat ∈ formats →
      chooseSwapSurfaceFormat formats = some preferredSurfaceFormat) ∧
    (preferredSurfaceFormat ∉ formats →
      chooseSwapSurfaceFormat formats = some (formats.head hne)) := by
  constructor
  · intro h
    unfold chooseSwapSurfaceFormat
    rw [chooseSwapSurfaceFormatLoop_eq_some_of_mem formats h]
  · intro h
    unfold chooseSwapSurfaceFormat
    rw [chooseSwapSurfaceFormatLoop_eq_none_of_not_mem formats h]
    cases formats with
    | nil => exact absurd rfl hne
    | cons a l => simp

/-- C7, on a list that holds the preferred pair in second place and on a list
that does not hold it. -/
theorem chooseSwapSurfaceFormat_preferred_or_first_witness :
    chooseSwapSurfaceFormat [⟨44, 0⟩, ⟨50, 0⟩] = some ⟨50, 0⟩ ∧
    chooseSwapSurfaceFormat [⟨44, 0⟩, ⟨37, 0⟩] = some ⟨44, 0⟩ :=
  ⟨(chooseSwapSurfaceFormat_preferred_or_first [⟨44, 0⟩, ⟨50, 0⟩] (by decide)).1 (by decide),
   (chooseSwapSurfaceFormat_preferred_or_first [⟨44, 0⟩, ⟨37, 0⟩] (by decide)).2 (by decide)⟩

theorem chooseSwapPresentMode_eq_mailbox_or_fifo (modes : List Nat) :
    (VK_PRESENT_MODE_MAILBOX_KHR ∈ modes ∧
      chooseSwapPresentMode modes = VK_PRESENT_MODE_MAILBOX_KHR) ∨
    (VK_PRESENT_MODE_MAILBOX_KHR ∉ modes ∧
      chooseSwapPresentMode modes = VK_PRESENT_MODE_FIFO_KHR) := by
  induction modes with
  | nil => right; exact ⟨by simp, rfl⟩
  | cons mode rest ih =>
    unfold chooseSwapPresentMode
    by_cases hm : mode = VK_PRESENT_MODE_MAILBOX_KHR
    · left
      rw [if_pos hm]
      exact ⟨hm ▸ List.mem_cons_self _ _, hm⟩
    · rw [if_neg hm]
      rcases ih with ⟨h1, h2⟩ | ⟨h1, h2⟩
      · exact Or.inl ⟨List.mem_cons_of_mem _ h1, h2⟩
      · refine Or.inr ⟨?_, h2⟩
        intro h
        rcases List.mem_cons.1 h with h3 | h3
        · exact hm h3.symm
        · exact h1 h3

/-- C8: on every list of supported present modes, the empty list included,
`chooseSwapPresentMode` returns `VK_PRESENT_MODE_MAILBOX_KHR` if and only if that
mode occurs somewhere in the list, and `VK_PRESENT_MODE_FIFO_KHR` otherwise,
whether or not the list holds `VK_PRESENT_MODE_FIFO_KHR`. -/
theorem chooseSwapPresentMode_mailbox_iff (modes : List Nat) :
    (chooseSwapPresentMode modes = VK_PRESENT_MODE_MAILBOX_KHR ↔
      VK_PRESENT_MODE_MAILBOX_KHR ∈ modes) ∧
    (VK_PRESENT_MODE_MAILBOX_KHR ∉ modes →
      chooseSwapPresentMode modes = VK_PRESENT_MODE_FIFO_KHR) := by
  rcases chooseSwapPresentMode_eq_mailbox_or_fifo modes with ⟨h1, h2⟩ | ⟨h1, h2⟩
  · exact ⟨⟨fun _ => h1, fun _ => h2⟩, fun h => absurd h1 h⟩
  · refine ⟨⟨fun h => ?_, fun h => absurd h h1⟩, fun _ => h2⟩
    rw [h2] at h
    exact absurd h (by decide)

/-- C8, on a list without the mailbox mode and without the FIFO mode. -/
theorem chooseSwapPresentMode_mailbox_iff_witness :
    chooseSwapPresentMode [VK_PRESENT_MODE_IMMEDIATE_KHR, VK_PRESENT_MODE_FIFO_RELAXED_KHR] =
      VK_PRESENT_MODE_FIFO_KHR :=
  (chooseSwapPresentMode_mailbox_iff
    [VK_PRESENT_MODE_IMMEDIATE_KHR, VK_PRESENT_MODE_FIFO_RELAXED_KHR]).2 (by decide)

/-- C9, as stated, fails: the current extent of `widthOnlyCapabilities` is not
the undefined extent (its height is 600), yet for the window size 800 x 600
`chooseSwapExtent` returns 800 x 600 and not the current extent. -/
theorem chooseSwapExtent_currentExtent_counterexample :
    widthOnlyCapabilities.currentExtent ≠ undefinedExtent ∧
    chooseSwapExtent widthOnlyCapabilities ⟨800, 600⟩ = ⟨800, 600⟩ ∧
    chooseSwapExtent widthOnlyCapabilities ⟨800, 600⟩ ≠
      widthOnlyCapabilities.currentExtent := by
  decide

/-- C9, amended: for every capability snapshot whose current extent has a width
other than `2^32 - 1`, and for every window framebuffer size, `chooseSwapExtent`
returns the current extent unchanged, on both axes. -/
theorem chooseSwapExtent_currentExtent (capabilities : VkSurfaceCapabilitiesKHR)
    (windowSize : Size) (h : capabilities.currentExtent.width ≠ UINT32_MAX) :
    chooseSwapExtent capabilities windowSize = capabilities.currentExtent ∧
    (chooseSwapExtent capabilities windowSize).width = capabilities.currentExtent.width ∧
    (chooseSwapExtent capabilities windowSize).height =
      capabilities.currentExtent.height := by
  have : chooseSwapExtent capabilities windowSize = capabilities.currentExtent := by
    unfold chooseSwapExtent
    rw [if_pos h]
  exact ⟨this, by rw [this], by rw [this]⟩

/-- C9, amended, on a current extent of 640 x 480 and a window of 800 x 600. -/
theorem chooseSwapExtent_currentExtent_witness :
    chooseSwapExtent fixedCapabilities ⟨800, 600⟩ = ⟨640, 480⟩ :=
  (chooseSwapExtent_currentExtent fixedCapabilities ⟨800, 600⟩ (by decide)).1

theorem stdClamp_cases (v lo hi : Nat) (h : lo ≤ hi) :
    lo ≤ stdClamp v lo hi ∧ stdClamp v lo hi ≤ hi ∧
    (v < lo → stdClamp v lo hi = lo) ∧
    (hi < v → stdClamp v lo hi = hi) ∧
    (lo ≤ v → v ≤ hi → stdClamp v lo hi = v) := by
  unfold stdClamp
  refine ⟨?_, ?_, ?_, ?_, ?_⟩
  · split_ifs <;> omega
  · split_ifs <;> omega
  · intro h1; rw [if_pos h1]
  · intro h1; rw [if_neg (by omega), if_pos h1]
  · intro h1 h2; rw [if_neg (by omega), if_neg (by omega)]

theorem chooseSwapExtent_of_width_max (capabilities : VkSurfaceCapabilitiesKHR)
    (windowSize : Size) (h : capabilities.currentExtent.width = UINT32_MAX) :
    chooseSwapExtent capabilities windowSize =
      { width := stdClamp windowSize.width capabilities.minImageExtent.width
          capabilities.maxImageExtent.width,
        height := stdClamp windowSize.height capabilities.minImageExtent.height
          capabilities.maxImageExtent.height } := by
  unfold chooseSwapExtent
  rw [if_neg (not_not.2 h)]

/-- C10: for every capability snapshot whose current extent is the undefined
extent and whose minimum extent is at most its maximum extent on each axis, and
for every window size, the width returned by `chooseSwapExtent` is the window
width clamped into the range of widths and the height returned is the window
height clamped into the range of heights: a value below the minimum becomes the
minimum, a value above the maximum becomes the maximum, a value in range is
unchanged, and the result on an axis is a function of that axis alone. -/
theorem chooseSwapExtent_undefined_clamps (capabilities : VkSurfaceCapabilitiesKHR)
    (windowSize : Size)
    (hs : capabilities.currentExtent = undefinedExtent)
    (hw : capabilities.minImageExtent.width ≤ capabilities.maxImageExtent.width)
    (hh : capabilities.minImageExtent.height ≤ capabilities.maxImageExtent.height) :
    (chooseSwapExtent capabilities windowSize).width =
        max capabilities.minImageExtent.width
          (min windowSize.width capabilities.maxImageExtent.width) ∧
    (chooseSwapExtent capabilities windowSize).height =
        max capabilities.minImageExtent.height
          (min windowSize.height capabilities.maxImageExtent.height) ∧
    (windowSize.width < capabilities.minImageExtent.width →
      (chooseSwapExtent capabilities windowSize).width =
        capabilities.minImageExtent.width) ∧
    (capabilities.maxImageExtent.width < windowSize.width →
      (chooseSwapExtent capabilities windowSize).width =
        capabilities.maxImageExtent.width) ∧
    (capabilities.minImageExtent.width ≤ windowSize.width →
      windowSize.width ≤ capabilities.maxImageExtent.width →
      (chooseSwapExtent capabilities windowSize).width = windowSize.width) ∧
    (windowSize.height < capabilities.minImageExtent.height →
      (chooseSwapExtent capabilities windowSize).height =
        capabilities.minImageExtent.height) ∧
    (capabilities.maxImageExtent.height < windowSize.height →
      (chooseSwapExtent capabilities windowSize).height =
        capabilities.maxImageExtent.height) ∧
    (capabilities.minImageExtent.height ≤ windowSize.height →
      windowSize.height ≤ capabilities.maxImageExtent.height →
      (chooseSwapExtent capabilities windowSize).height = windowSize.height) ∧
    (∀ other : Size, other.width = windowSize.width →
      (chooseSwapExtent capabilities other).width =
        (chooseSwapExtent capabilities windowSize).width) ∧
    (∀ other : Size, other.height = windowSize.height →
      (chooseSwapExtent capabilities other).height =
        (chooseSwapExtent capabilities windowSize).height) := by
  have hmax : capabilities.currentExtent.width = UINT32_MAX := by rw [hs]; rfl
  have hc := stdClamp_cases windowSize.width _ _ hw
  have hd := stdClamp_cases windowSize.height _ _ hh
  have key := chooseSwapExtent_of_width_max capabilities windowSize hmax
  rw [key]
  refine ⟨?_, ?_, hc.2.2.1, hc.2.2.2.1, hc.2.2.2.2, hd.2.2.1, hd.2.2.2.1, hd.2.2.2.2, ?_, ?_⟩
  · show stdClamp _ _ _ = _
    unfold stdClamp
    split_ifs <;> omega
  · show stdClamp _ _ _ = _
    unfold stdClamp
    split_ifs <;> omega
  · intro other ho
    rw [chooseSwapExtent_of_width_max capabilities other hmax]
    show stdClamp _ _ _ = stdClamp _ _ _
    rw [ho]
  · intro other ho
    rw [chooseSwapExtent_of_width_max capabilities other hmax]
    show stdClamp _ _ _ = stdClamp _ _ _
    rw [ho]

/-- C10, on the extent range 320 x 200 to 4096 x 2160 and a window of
100 x 5000: the width is raised to 320 and the height is lowered to 2160. -/
theorem chooseSwapExtent_undefined_clamps_witness :
    (chooseSwapExtent undefinedCapabilities ⟨100, 5000⟩).width = 320 ∧
    (chooseSwapExtent undefinedCapabilities ⟨100, 5000⟩).height = 2160 :=
  ⟨(chooseSwapExtent_undefined_clamps undefinedCapabilities ⟨100, 5000⟩ rfl
      (by decide) (by decide)).2.2.1 (by decide),
   (chooseSwapExtent_undefined_clamps undefinedCapabilities ⟨100, 5000⟩ rfl
      (by decide) (by decide)).2.2.2.2.2.2.1 (by decide)⟩

/-! ## Queue families -/

theorem lastBelow_eq_some_iff (f : Nat → Bool) (m g : Nat) :
    lastBelow f m = some g ↔
      g < m ∧ f g = true ∧ ∀ j, g < j → j < m → f j = false := by
  induction m with
  | zero => simp [lastBelow]
  | succ m ih =>
    unfold lastBelow
    by_cases hf : f m = true
    · rw [if_pos hf]
      constructor
      · intro h
        have hg : m = g := Option.some.inj h
        subst hg
        exact ⟨Nat.lt_succ_self _, hf, fun j h1 h2 => absurd h2 (by omega)⟩
      · rintro ⟨h1, h2, h3⟩
        by_cases hgm : g = m
        · rw [hgm]
        · have := h3 m (by omega) (Nat.lt_succ_self _)
          rw [hf] at this
          exact absurd this (by decide)
    · rw [if_neg hf, ih]
      have hf2 : f m = false := by simpa using hf
      constructor
      · rintro ⟨h1, h2, h3⟩
        refine ⟨by omega, h2, fun j h4 h5 => ?_⟩
        by_cases hjm : j = m
        · rw [hjm]; exact hf2
        · exact h3 j h4 (by omega)
      · rintro ⟨h1, h2, h3⟩
        have hgm : g ≠ m := fun h => hf (h ▸ h2)
        exact ⟨by omega, h2, fun j h4 h5 => h3 j h4 (by omega)⟩

theorem lastBelow_isSome_iff (f : Nat → Bool) (m : Nat) :
    (lastBelow f m).isSome = true ↔ ∃ j, j < m ∧ f j = true := by
  induction m with
  | zero => simp [lastBelow]
  | succ m ih =>
    unfold lastBelow
    by_cases hf : f m = true
    · rw [if_pos hf]
      exact ⟨fun _ => ⟨m, Nat.lt_succ_self _, hf⟩, fun _ => rfl⟩
    · rw [if_neg hf, ih]
      constructor
      · rintro ⟨j, h1, h2⟩
        exact ⟨j, by omega, h2⟩
      · rintro ⟨j, h1, h2⟩
        have hjm : j ≠ m := fun h => hf (h ▸ h2)
        exact ⟨j, by omega, h2⟩

theorem bothBelow_iff (gb ps : Nat → Bool) (k : Nat) :
    bothBelow gb ps k = true ↔
      (∃ a, a < k ∧ gb a = true) ∧ (∃ b, b < k ∧ ps b = true) := by
  unfold bothBelow
  rw [Bool.and_eq_true, lastBelow_isSome_iff, lastBelow_isSome_iff]

theorem bothBelow_mono (gb ps : Nat → Bool) (k m : Nat) (hkm : k ≤ m)
    (h : bothBelow gb ps k = true) : bothBelow gb ps m = true := by
  rw [bothBelow_iff] at h ⊢
  obtain ⟨⟨a, ha, hga⟩, ⟨b, hb, hpb⟩⟩ := h
  exact ⟨⟨a, by omega, hga⟩, ⟨b, by omega, hpb⟩⟩

theorem findQueueFamiliesLoop_step (ps gb : Nat → Bool) (family : VkQueueFamilyProperties)
    (rest : List VkQueueFamilyProperties) (i : Nat)
    (hg : gb i = decide (family.queueFlags &&& VK_QUEUE_GRAPHICS_BIT ≠ 0)) :
    findQueueFamiliesLoop ps (family :: rest) i ⟨lastBelow gb i, lastBelow ps i⟩ =
      if bothBelow gb ps (i + 1) = true then ⟨lastBelow gb (i + 1), lastBelow ps (i + 1)⟩
      else findQueueFamiliesLoop ps rest (i + 1)
        ⟨lastBelow gb (i + 1), lastBelow ps (i + 1)⟩ := by
  have h1 : lastBelow gb (i + 1) = if gb i = true then some i else lastBelow gb i := rfl
  have h2 : lastBelow ps (i + 1) = if ps i = true then some i else lastBelow ps i := rfl
  rw [findQueueFamiliesLoop]
  unfold bothBelow QueueFamilyIndices.isComplete
  rw [h1, h2, hg]
  by_cases c1 : family.queueFlags &&& VK_QUEUE_GRAPHICS_BIT ≠ 0 <;>
    by_cases c2 : ps i = true <;> simp [c1, c2]

theorem findQueueFamiliesLoop_closed (ps gb : Nat → Bool) :
    ∀ (rest : List VkQueueFamilyProperties) (i : Nat),
      (∀ (j : Nat) (h : j < rest.length),
        gb (i + j) =
          decide ((rest.get ⟨j, h⟩).queueFlags &&& VK_QUEUE_GRAPHICS_BIT ≠ 0)) →
      bothBelow gb ps i = false →
      ∃ m, i ≤ m ∧ m ≤ i + rest.length ∧
        findQueueFamiliesLoop ps rest i ⟨lastBelow gb i, lastBelow ps i⟩ =
          ⟨lastBelow gb m, lastBelow ps m⟩ ∧
        (∀ k, k < m → bothBelow gb ps k = false) ∧
        (m < i + rest.length → bothBelow gb ps m = true) := by
  intro rest
  induction rest with
  | nil =>
    intro i _ hi
    refine ⟨i, le_refl _, by simp, by simp [findQueueFamiliesLoop], ?_, by simp⟩
    intro k hk
    by_contra hc
    have := bothBelow_mono gb ps k i (by omega) (by simpa using hc)
    rw [hi] at this
    exact absurd this (by decide)
  | cons family rest ih =>
    intro i hgb hi
    have hg : gb i = decide (family.queueFlags &&& VK_QUEUE_GRAPHICS_BIT ≠ 0) := by
      have := hgb 0 (by simp)
      simpa using this
    rw [findQueueFamiliesLoop_step ps gb family rest i hg]
    have hbelow : ∀ k, k < i + 1 → bothBelow gb ps k = false := by
      intro k hk
      by_contra hc
      have := bothBelow_mono gb ps k i (by omega) (by simpa using hc)
      rw [hi] at this
      exact absurd this (by decide)
    by_cases hc : bothBelow gb ps (i + 1) = true
    · rw [if_pos hc]
      exact ⟨i + 1, by omega, by simp, rfl, hbelow, fun _ => hc⟩
    · rw [if_neg hc]
      have hrest : ∀ (j : Nat) (h : j < rest.length),
          gb (i + 1 + j) =
            decide ((rest.get ⟨j, h⟩).queueFlags &&& VK_QUEUE_GRAPHICS_BIT ≠ 0) := by
        intro j h
        have := hgb (j + 1) (by simp; omega)
        have e : i + (j + 1) = i + 1 + j := by omega
        rw [e] at this
        simpa using this
      obtain ⟨m, h1, h2, h3, h4, h5⟩ := ih (i + 1) hrest (by simpa using hc)
      refine ⟨m, by omega, by simp; omega, h3, h4, ?_⟩
      intro hm
      apply h5
      simp at hm
      omega

theorem scanQueueFamilies_closed (queueFamilies : List VkQueueFamilyProperties)
    (ps : Nat → Bool) :
    ∃ m, m ≤ queueFamilies.length ∧
      scanQueueFamilies queueFamilies ps =
        ⟨lastBelow (graphicsBit queueFamilies) m, lastBelow ps m⟩ ∧
      (∀ k, k < m → bothBelow (graphicsBit queueFamilies) ps k = false) ∧
      (m < queueFamilies.length → bothBelow (graphicsBit queueFamilies) ps m = true) := by
  have hgb : ∀ (j : Nat) (h : j < queueFamilies.length),
      graphicsBit queueFamilies (0 + j) =
        decide ((queueFamilies.get ⟨j, h⟩).queueFlags &&& VK_QUEUE_GRAPHICS_BIT ≠ 0) := by
    intro j h
    unfold graphicsBit
    rw [Nat.zero_add, List.getElem?_eq_getElem h]
    rfl
  obtain ⟨m, _, h2, h3, h4, h5⟩ :=
    findQueueFamiliesLoop_closed ps (graphicsBit queueFamilies) queueFamilies 0 hgb rfl
  refine ⟨m, by omega, h3, h4, ?_⟩
  intro hm
  exact h5 (by omega)

theorem graphicsBit_iff (rt : Runtime) (physicalDevice : VkPhysicalDevice) (j : Nat) :
    graphicsBit (rt.queueFamilyProperties physicalDevice) j = true ↔
      SupportsGraphics rt physicalDevice j := by
  unfold graphicsBit SupportsGraphics
  by_cases h : j < (rt.queueFamilyProperties physicalDevice).length
  · rw [List.getElem?_eq_getElem h]
    simp only [VK_QUEUE_GRAPHICS_BIT, Nat.and_one_is_mod, ne_eq, decide_eq_true_eq,
      Nat.testBit_zero, List.get_eq_getElem]
    constructor
    · intro h1
      exact ⟨h, by omega⟩
    · rintro ⟨_, h1⟩
      omega
  · rw [List.getElem?_eq_none (by omega)]
    constructor
    · intro h1
      exact absurd h1 (by decide)
    · rintro ⟨h1, _⟩
      exact absurd h1 h

/-- C5: if `findQueueFamilies` reports a graphics index, that index is a valid
index of the device's queue-family list and the family there has the graphics
capability bit; if it reports a present index, that index is a valid index and
the surface-support query for that family is true. -/
theorem findQueueFamilies_reports_capable (rt : Runtime) (physicalDevice : VkPhysicalDevice)
    (surface : VkSurfaceKHR) :
    (∀ g, (findQueueFamilies rt physicalDevice surface).graphicsFamily = some g →
      ∃ h : g < (rt.queueFamilyProperties physicalDevice).length,
        ((rt.queueFamilyProperties physicalDevice).get ⟨g, h⟩).queueFlags.testBit 0 = true) ∧
    (∀ p, (findQueueFamilies rt physicalDevice surface).presentFamily = some p →
      p < (rt.queueFamilyProperties physicalDevice).length ∧
        rt.surfaceSupport physicalDevice p surface = true) := by
  obtain ⟨m, h1, h2, _, _⟩ :=
    scanQueueFamilies_closed (rt.queueFamilyProperties physicalDevice)
      (fun i => rt.surfaceSupport physicalDevice i surface)
  unfold findQueueFamilies
  rw [h2]
  constructor
  · intro g hg
    have := (lastBelow_eq_some_iff _ _ _).1 hg
    exact (graphicsBit_iff rt physicalDevice g).1 this.2.1
  · intro p hp
    have := (lastBelow_eq_some_iff _ _ _).1 hp
    exact ⟨by omega, this.2.1⟩

/-- C5, on the device `1` of `exampleRuntime`: the reported graphics index `1`
is a valid index of a family with the graphics capability bit. -/
theorem findQueueFamilies_reports_capable_witness :
    ∃ h : 1 < (exampleRuntime.queueFamilyProperties 1).length,
      ((exampleRuntime.queueFamilyProperties 1).get ⟨1, h⟩).queueFlags.testBit 0 = true :=
  (findQueueFamilies_reports_capable exampleRuntime 1 7).1 1 (by decide)

theorem bothBelow_iff_supports (rt : Runtime) (physicalDevice : VkPhysicalDevice)
    (surface : VkSurfaceKHR) (j : Nat)
    (hj : j ≤ (rt.queueFamilyProperties physicalDevice).length) :
    bothBelow (graphicsBit (rt.queueFamilyProperties physicalDevice))
        (fun i => rt.surfaceSupport physicalDevice i surface) j = true ↔
      (∃ a, a < j ∧ SupportsGraphics rt physicalDevice a) ∧
      (∃ b, b < j ∧ SupportsPresent rt physicalDevice surface b) := by
  rw [bothBelow_iff]
  constructor
  · rintro ⟨⟨a, ha, hga⟩, ⟨b, hb, hpb⟩⟩
    exact ⟨⟨a, ha, (graphicsBit_iff rt physicalDevice a).1 hga⟩, ⟨b, hb, by omega, hpb⟩⟩
  · rintro ⟨⟨a, ha, hga⟩, ⟨b, hb, _, hpb⟩⟩
    exact ⟨⟨a, ha, (graphicsBit_iff rt physicalDevice a).2 hga⟩, ⟨b, hb, hpb⟩⟩

theorem examined_iff_lt (rt : Runtime) (physicalDevice : VkPhysicalDevice)
    (surface : VkSurfaceKHR) (m : Nat)
    (hm : m ≤ (rt.queueFamilyProperties physicalDevice).length)
    (h4 : ∀ k, k < m →
      bothBelow (graphicsBit (rt.queueFamilyProperties physicalDevice))
        (fun i => rt.surfaceSupport physicalDevice i surface) k = false)
    (h5 : m < (rt.queueFamilyProperties physicalDevice).length →
      bothBelow (graphicsBit (rt.queueFamilyProperties physicalDevice))
        (fun i => rt.surfaceSupport physicalDevice i surface) m = true)
    (j : Nat) : Examined rt physicalDevice surface j ↔ j < m := by
  unfold Examined
  constructor
  · rintro ⟨hj, hn⟩
    by_contra hc
    apply hn
    rw [← bothBelow_iff_supports rt physicalDevice surface j (by omega)]
    exact bothBelow_mono _ _ m j (by omega) (h5 (by omega))
  · intro hj
    refine ⟨by omega, ?_⟩
    rw [← bothBelow_iff_supports rt physicalDevice surface j (by omega), h4 j hj]
    decide

/-- C6, as stated, fails.  On the device `1` of `exampleRuntime` the families
`0` and `1` both have the graphics capability bit, and `findQueueFamilies`
reports the graphics index `1`, which is not the smallest.  With the same
queue-family list and a surface presentable from family `0` instead of family
`1`, the graphics index reported is `0`: it is not determined independently of
the present support. -/
theorem findQueueFamilies_smallest_counterexample :
    SupportsGraphics exampleRuntime 1 0 ∧
    (findQueueFamilies exampleRuntime 1 7).graphicsFamily = some 1 ∧
    exampleRuntimePresentFirst.queueFamilyProperties 1 =
      exampleRuntime.queueFamilyProperties 1 ∧
    (findQueueFamilies exampleRuntimePresentFirst 1 7).graphicsFamily = some 0 :=
  ⟨⟨by decide, by decide⟩, by decide, rfl, by decide⟩

/-- C6, amended: the scan examines the families in index order up to and
including the smallest index by which both a graphics-capable and a
present-capable family have occurred (all families, if there is no such index).
The graphics index reported by `findQueueFamilies` is the largest index of an
examined family that supports graphics, and the present index reported is the
largest index of an examined family that supports presentation to the surface. -/
theorem findQueueFamilies_largest_examined (rt : Runtime) (physicalDevice : VkPhysicalDevice)
    (surface : VkSurfaceKHR) :
    (∀ g, (findQueueFamilies rt physicalDevice surface).graphicsFamily = some g ↔
      Examined rt physicalDevice surface g ∧ SupportsGraphics rt physicalDevice g ∧
        ∀ j, Examined rt physicalDevice surface j → SupportsGraphics rt physicalDevice j →
          j ≤ g) ∧
    (∀ p, (findQueueFamilies rt physicalDevice surface).presentFamily = some p ↔
      Examined rt physicalDevice surface p ∧ SupportsPresent rt physicalDevice surface p ∧
        ∀ j, Examined rt physicalDevice surface j →
          SupportsPresent rt physicalDevice surface j → j ≤ p) := by
  obtain ⟨m, h1, h2, h4, h5⟩ :=
    scanQueueFamilies_closed (rt.queueFamilyProperties physicalDevice)
      (fun i => rt.surfaceSupport physicalDevice i surface)
  have hex := examined_iff_lt rt physicalDevice surface m h1 h4 h5
  unfold findQueueFamilies
  rw [h2]
  constructor
  · intro g
    show lastBelow _ m = some g ↔ _
    rw [lastBelow_eq_some_iff, hex g, graphicsBit_iff]
    constructor
    · rintro ⟨hg, hs, hlast⟩
      refine ⟨hg, hs, fun j hj hsj => ?_⟩
      by_contra hc
      have := hlast j (by omega) ((hex j).1 hj)
      rw [(graphicsBit_iff rt physicalDevice j).2 hsj] at this
      exact absurd this (by decide)
    · rintro ⟨hg, hs, hlast⟩
      refine ⟨hg, hs, fun j hgj hjm => ?_⟩
      by_contra hc
      have hsj := (graphicsBit_iff rt physicalDevice j).1 (by simpa using hc)
      have := hlast j ((hex j).2 hjm) hsj
      omega
  · intro p
    show lastBelow _ m = some p ↔ _
    rw [lastBelow_eq_some_iff, hex p]
    unfold SupportsPresent
    constructor
    · rintro ⟨hp, hs, hlast⟩
      refine ⟨hp, ⟨by omega, hs⟩, fun j hj hsj => ?_⟩
      by_contra hc
      have := hlast j (by omega) ((hex j).1 hj)
      rw [hsj.2] at this
      exact absurd this (by decide)
    · rintro ⟨hp, hs, hlast⟩
      refine ⟨hp, hs.2, fun j hpj hjm => ?_⟩
      by_contra hc
      have := hlast j ((hex j).2 hjm) ⟨by omega, by simpa using hc⟩
      omega

/-- C6, amended, on the device `1` of `exampleRuntime`: the reported graphics
index `1` is the index of an examined family that supports graphics. -/
theorem findQueueFamilies_largest_examined_witness :
    Examined exampleRuntime 1 7 1 ∧ SupportsGraphics exampleRuntime 1 1 :=
  ⟨(((findQueueFamilies_largest_examined exampleRuntime 1 7).1 1).1 (by decide)).1,
   (((findQueueFamilies_largest_examined exampleRuntime 1 7).1 1).1 (by decide)).2.1⟩

/-! ## Device selection -/

theorem querySwapchainSupport_formats (rt : Runtime) (physicalDevice : VkPhysicalDevice)
    (surface : VkSurfaceKHR) :
    (querySwapchainSupport rt physicalDevice surface).formats =
      rt.surfaceFormats physicalDevice surface := by
  unfold querySwapchainSupport
  cases h : rt.surfaceFormats physicalDevice surface <;> simp

theorem querySwapchainSupport_presentModes (rt : Runtime) (physicalDevice : VkPhysicalDevice)
    (surface : VkSurfaceKHR) :
    (querySwapchainSupport rt physicalDevice surface).presentModes =
      rt.surfacePresentModes physicalDevice surface := by
  unfold querySwapchainSupport
  cases h : rt.surfacePresentModes physicalDevice surface <;> simp

theorem score_eq (rt : Runtime) (surface : VkSurfaceKHR) (requiredExtensions : List String)
    (device : VkPhysicalDevice) [Decidable (Qualifies rt surface requiredExtensions device)] :
    score rt surface requiredExtensions device =
      if Qualifies rt surface requiredExtensions device then
        some (if rt.deviceType device = VK_PHYSICAL_DEVICE_TYPE_DISCRETE_GPU then 1 else 0)
      else none := by
  unfold score Qualifies
  simp only [querySwapchainSupport_formats, querySwapchainSupport_presentModes,
    ← checkDeviceExtensionSupport_eq_true_iff]
  cases h1 : (findQueueFamilies rt device surface).isComplete <;>
    cases h2 : checkDeviceExtensionSupport rt device requiredExtensions <;>
    cases h3 : rt.surfaceFormats device surface <;>
    cases h4 : rt.surfacePresentModes device surface <;> simp

theorem score_eq_none_iff (rt : Runtime) (surface : VkSurfaceKHR)
    (requiredExtensions : List String) (device : VkPhysicalDevice) :
    score rt surface requiredExtensions device = none ↔
      ¬ Qualifies rt surface requiredExtensions device := by
  haveI := Classical.dec (Qualifies rt surface requiredExtensions device)
  rw [score_eq]
  by_cases h : Qualifies rt surface requiredExtensions device
  · simp [h]
  · simp [h]

theorem score_eq_some_iff (rt : Runtime) (surface : VkSurfaceKHR)
    (requiredExtensions : List String) (device : VkPhysicalDevice) (v : Int) :
    score rt surface requiredExtensions device = some v ↔
      Qualifies rt surface requiredExtensions device ∧
        v = if rt.deviceType device = VK_PHYSICAL_DEVICE_TYPE_DISCRETE_GPU then 1 else 0 := by
  haveI := Classical.dec (Qualifies rt surface requiredExtensions device)
  rw [score_eq]
  by_cases h : Qualifies rt surface requiredExtensions device
  · simp only [h, if_true, true_and, Option.some.injEq]
    exact eq_comm
  · simp [h]

theorem score_zero_or_one (rt : Runtime) (surface : VkSurfaceKHR)
    (requiredExtensions : List String) (device : VkPhysicalDevice) (v : Int)
    (h : score rt surface requiredExtensions device = some v) : v = 0 ∨ v = 1 := by
  have := ((score_eq_some_iff rt surface requiredExtensions device v).1 h).2
  split_ifs at this
  · exact Or.inr this
  · exact Or.inl this

theorem deviceList_append_singleton (rt : Runtime) (l : List VkPhysicalDevice)
    (device : VkPhysicalDevice) (surface : VkSurfaceKHR) (requiredExtensions : List String) :
    deviceList rt (l ++ [device]) surface requiredExtensions =
      match score rt surface requiredExtensions device with
      | some deviceScore =>
        setInsert deviceListComp (device, deviceScore)
          (deviceList rt l surface requiredExtensions)
      | none => deviceList rt l surface requiredExtensions := by
  unfold deviceList
  rw [List.foldl_append]
  rfl

theorem deviceList_eq (rt : Runtime) (surface : VkSurfaceKHR)
    (requiredExtensions : List String) (l : List VkPhysicalDevice) :
    deviceList rt l surface requiredExtensions =
      ((firstWithScore rt surface requiredExtensions 0 l).map
          (fun d => (d, (0 : Int)))).toList ++
        ((firstWithScore rt surface requiredExtensions 1 l).map
          (fun d => (d, (1 : Int)))).toList := by
  induction l using List.reverseRecOn with
  | nil => rfl
  | append_singleton l device ih =>
    rw [deviceList_append_singleton, ih]
    unfold firstWithScore
    rw [List.find?_append, List.find?_append]
    cases hs : score rt surface requiredExtensions device with
    | none => simp [hs]
    | some v =>
      rcases score_zero_or_one rt surface requiredExtensions device v hs with hv | hv
      · subst hv
        cases h0 : List.find? (fun d => decide (score rt surface requiredExtensions d = some 0)) l <;>
          cases h1 : List.find? (fun d => decide (score rt surface requiredExtensions d = some 1)) l <;>
          simp [hs, setInsert, deviceListComp]
      · subst hv
        cases h0 : List.find? (fun d => decide (score rt surface requiredExtensions d = some 0)) l <;>
          cases h1 : List.find? (fun d => decide (score rt surface requiredExtensions d = some 1)) l <;>
          simp [hs, setInsert, deviceListComp]

theorem mostSuitableDevice_eq (rt : Runtime) (surface : VkSurfaceKHR)
    (requiredExtensions : List String) (l : List VkPhysicalDevice) :
    mostSuitableDevice rt l surface requiredExtensions =
      (firstWithScore rt surface requiredExtensions 0 l).or
        (firstWithScore rt surface requiredExtensions 1 l) := by
  unfold mostSuitableDevice
  rw [deviceList_eq]
  cases h0 : firstWithScore rt surface requiredExtensions 0 l <;>
    cases h1 : firstWithScore rt surface requiredExtensions 1 l <;> simp

theorem firstWithScore_some (rt : Runtime) (surface : VkSurfaceKHR)
    (requiredExtensions : List String) (v : Int) (l : List VkPhysicalDevice)
    (device : VkPhysicalDevice)
    (h : firstWithScore rt surface requiredExtensions v l = some device) :
    device ∈ l ∧ score rt surface requiredExtensions device = some v := by
  unfold firstWithScore at h
  exact ⟨List.mem_of_find?_eq_some h, by simpa using List.find?_some h⟩

theorem mostSuitableDevice_some (rt : Runtime) (surface : VkSurfaceKHR)
    (requiredExtensions : List String) (l : List VkPhysicalDevice)
    (device : VkPhysicalDevice)
    (h : mostSuitableDevice rt l surface requiredExtensions = some device) :
    device ∈ l ∧ Qualifies rt surface requiredExtensions device := by
  rw [mostSuitableDevice_eq, Option.or_eq_some] at h
  rcases h with h | ⟨_, h⟩
  · have := firstWithScore_some rt surface requiredExtensions 0 l device h
    exact ⟨this.1, ((score_eq_some_iff _ _ _ _ _).1 this.2).1⟩
  · have := firstWithScore_some rt surface requiredExtensions 1 l device h
    exact ⟨this.1, ((score_eq_some_iff _ _ _ _ _).1 this.2).1⟩

theorem mostSuitableDevice_eq_none_iff (rt : Runtime) (surface : VkSurfaceKHR)
    (requiredExtensions : List String) (l : List VkPhysicalDevice) :
    mostSuitableDevice rt l surface requiredExtensions = none ↔
      ∀ d ∈ l, ¬ Qualifies rt surface requiredExtensions d := by
  rw [mostSuitableDevice_eq, Option.or_eq_none]
  unfold firstWithScore
  rw [List.find?_eq_none, List.find?_eq_none]
  constructor
  · rintro ⟨h0, h1⟩ d hd hq
    by_cases hdisc : rt.deviceType d = VK_PHYSICAL_DEVICE_TYPE_DISCRETE_GPU
    · apply h1 d hd
      rw [decide_eq_true_eq, score_eq_some_iff]
      exact ⟨hq, by rw [if_pos hdisc]⟩
    · apply h0 d hd
      rw [decide_eq_true_eq, score_eq_some_iff]
      exact ⟨hq, by rw [if_neg hdisc]⟩
  · intro h
    constructor
    · intro d hd hs
      rw [decide_eq_true_eq, score_eq_some_iff] at hs
      exact h d hd hs.1
    · intro d hd hs
      rw [decide_eq_true_eq, score_eq_some_iff] at hs
      exact h d hd hs.1

/-- C1: if `mostSuitableDevice` returns a device, that device is an element of
the input list, `findQueueFamilies` is complete for it, `checkDeviceExtensionSupport`
is true for it, and `querySwapchainSupport` reports at least one format and at
least one present mode for it. -/
theorem mostSuitableDevice_returns_qualifying (rt : Runtime)
    (physicalDevices : List VkPhysicalDevice) (surface : VkSurfaceKHR)
    (requiredExtensions : List String) (device : VkPhysicalDevice)
    (h : mostSuitableDevice rt physicalDevices surface requiredExtensions = some device) :
    device ∈ physicalDevices ∧
    (findQueueFamilies rt device surface).isComplete = true ∧
    checkDeviceExtensionSupport rt device requiredExtensions = true ∧
    (querySwapchainSupport rt device surface).formats ≠ [] ∧
    (querySwapchainSupport rt device surface).presentModes ≠ [] := by
  obtain ⟨hmem, hq⟩ := mostSuitableDevice_some rt surface requiredExtensions _ _ h
  unfold Qualifies at hq
  rw [querySwapchainSupport_formats, querySwapchainSupport_presentModes,
    checkDeviceExtensionSupport_eq_true_iff]
  exact ⟨hmem, hq⟩

/-- C1, on the devices `3`, `5`, `2` of `exampleRuntime`, of which only `2`
passes the filter. -/
theorem mostSuitableDevice_returns_qualifying_witness :
    (2 : VkPhysicalDevice) ∈ [3, 5, 2] ∧
    (findQueueFamilies exampleRuntime 2 7).isComplete = true ∧
    checkDeviceExtensionSupport exampleRuntime 2 m_deviceExtensions = true ∧
    (querySwapchainSupport exampleRuntime 2 7).formats ≠ [] ∧
    (querySwapchainSupport exampleRuntime 2 7).presentModes ≠ [] :=
  mostSuitableDevice_returns_qualifying exampleRuntime [3, 5, 2] 7 m_deviceExtensions 2
    (by decide)

theorem pickPhysicalDevice_of_none (rt : Runtime) (m_surface : VkSurfaceKHR)
    (hcount : rt.physicalDeviceGroupCount ≠ 0)
    (h : mostSuitableDevice rt (enumeratePhysicalDevices rt rt.physicalDeviceGroupCount)
      m_surface m_deviceExtensions = none) :
    pickPhysicalDevice rt m_surface = Except.error "No suitable GPU found" := by
  unfold pickPhysicalDevice
  simp only [hcount, if_false, h]
  rfl

/-- C3: `mostSuitableDevice` returns nothing if and only if no device of the
list qualifies.  So a list that holds exactly one qualifying device (an
integrated GPU in particular) yields that device; and when the only device does
not advertise the swapchain extension, the result is empty and
`pickPhysicalDevice` fails with the error "No suitable GPU found". -/
theorem mostSuitableDevice_none_iff (rt : Runtime) (physicalDevices : List VkPhysicalDevice)
    (surface : VkSurfaceKHR) (requiredExtensions : List String) :
    (mostSuitableDevice rt physicalDevices surface requiredExtensions = none ↔
      ∀ d ∈ physicalDevices, ¬ Qualifies rt surface requiredExtensions d) ∧
    (∀ d, Qualifies rt surface requiredExtensions d →
      mostSuitableDevice rt [d] surface requiredExtensions = some d) ∧
    (∀ d, VK_KHR_SWAPCHAIN_EXTENSION_NAME ∉ advertisedExtensionNames rt d →
      mostSuitableDevice rt [d] surface m_deviceExtensions = none ∧
      (rt.physicalDeviceGroupCount = 1 → rt.physicalDevices = [d] →
        pickPhysicalDevice rt surface = Except.error "No suitable GPU found")) := by
  refine ⟨mostSuitableDevice_eq_none_iff rt surface requiredExtensions physicalDevices,
    ?_, ?_⟩
  · intro d hq
    cases hm : mostSuitableDevice rt [d] surface requiredExtensions with
    | none =>
      have := (mostSuitableDevice_eq_none_iff rt surface requiredExtensions [d]).1 hm d
        (List.mem_singleton_self d)
      exact absurd hq this
    | some e =>
      have := (mostSuitableDevice_some rt surface requiredExtensions [d] e hm).1
      rw [List.mem_singleton] at this
      rw [this]
  · intro d hd
    have hnone : mostSuitableDevice rt [d] surface m_deviceExtensions = none := by
      rw [mostSuitableDevice_eq_none_iff]
      intro e he hq
      rw [List.mem_singleton] at he
      subst he
      exact hd (hq.2.1 VK_KHR_SWAPCHAIN_EXTENSION_NAME (List.mem_singleton_self _))
    refine ⟨hnone, fun hcount hdev => ?_⟩
    apply pickPhysicalDevice_of_none rt surface (by omega)
    unfold enumeratePhysicalDevices
    rw [hcount, hdev]
    exact hnone

/-- C3, on `exampleRuntimeNoSwapchain`, whose only device is the integrated GPU
`3` that does not advertise the swapchain extension. -/
theorem mostSuitableDevice_none_iff_witness :
    mostSuitableDevice exampleRuntimeNoSwapchain [3] 7 m_deviceExtensions = none ∧
    pickPhysicalDevice exampleRuntimeNoSwapchain 7 = Except.error "No suitable GPU found" :=
  ⟨((mostSuitableDevice_none_iff exampleRuntimeNoSwapchain [3] 7 m_deviceExtensions).2.2 3
      (by decide)).1,
   ((mostSuitableDevice_none_iff exampleRuntimeNoSwapchain [3] 7 m_deviceExtensions).2.2 3
      (by decide)).2 rfl rfl⟩

theorem firstWithScore_one_eq (rt : Runtime) (surface : VkSurfaceKHR)
    (requiredExtensions : List String) (l : List VkPhysicalDevice) :
    firstWithScore rt surface requiredExtensions 1 l =
      (l.filter (fun d =>
        decide (Qualifies rt surface requiredExtensions d ∧ IsDiscrete rt d))).head? := by
  rw [List.filter_head?]
  unfold firstWithScore
  congr 1
  funext d
  rw [decide_eq_decide, score_eq_some_iff]
  unfold IsDiscrete
  by_cases hd : rt.deviceType d = VK_PHYSICAL_DEVICE_TYPE_DISCRETE_GPU <;> simp [hd]

theorem firstWithScore_zero_eq (rt : Runtime) (surface : VkSurfaceKHR)
    (requiredExtensions : List String) (l : List VkPhysicalDevice) :
    firstWithScore rt surface requiredExtensions 0 l =
      (l.filter (fun d =>
        decide (Qualifies rt surface requiredExtensions d ∧ ¬ IsDiscrete rt d))).head? := by
  rw [List.filter_head?]
  unfold firstWithScore
  congr 1
  funext d
  rw [decide_eq_decide, score_eq_some_iff]
  unfold IsDiscrete
  by_cases hd : rt.deviceType d = VK_PHYSICAL_DEVICE_TYPE_DISCRETE_GPU <;> simp [hd]

/-- C2, as stated, fails.  In `exampleRuntime` the devices `1` and `4` are
qualifying integrated GPUs and the device `2` is a qualifying discrete GPU.  On
the list `[1, 2]` the device returned is `1`, which is not a discrete GPU; and
the two orderings `[1, 4, 2]` and `[4, 1, 2]` of one list yield the different
devices `1` and `4`. -/
theorem mostSuitableDevice_discrete_counterexample :
    Qualifies exampleRuntime 7 m_deviceExtensions 1 ∧ ¬ IsDiscrete exampleRuntime 1 ∧
    Qualifies exampleRuntime 7 m_deviceExtensions 4 ∧ ¬ IsDiscrete exampleRuntime 4 ∧
    Qualifies exampleRuntime 7 m_deviceExtensions 2 ∧ IsDiscrete exampleRuntime 2 ∧
    mostSuitableDevice exampleRuntime [1, 2] 7 m_deviceExtensions = some 1 ∧
    mostSuitableDevice exampleRuntime [1, 4, 2] 7 m_deviceExtensions = some 1 ∧
    mostSuitableDevice exampleRuntime [4, 1, 2] 7 m_deviceExtensions = some 4 := by
  decide

/-- C2, amended: for every device list that contains at least one qualifying
discrete GPU and at least one qualifying non-discrete device,
`mostSuitableDevice` returns a qualifying device of the list, and the device
returned is the same for every ordering of the list that keeps the qualifying
discrete GPUs in their relative order and the qualifying non-discrete devices
in their relative order (in particular when a discrete and a non-discrete
device next to each other are swapped). -/
theorem mostSuitableDevice_stable_order (rt : Runtime) (surface : VkSurfaceKHR)
    (requiredExtensions : List String) (l₁ l₂ : List VkPhysicalDevice)
    (hdisc : ∃ d ∈ l₁, Qualifies rt surface requiredExtensions d ∧ IsDiscrete rt d)
    (_hnon : ∃ d ∈ l₁, Qualifies rt surface requiredExtensions d ∧ ¬ IsDiscrete rt d)
    (_hperm : l₂.Perm l₁)
    (horder₁ :
      l₂.filter (fun d => decide (Qualifies rt surface requiredExtensions d ∧ IsDiscrete rt d)) =
      l₁.filter (fun d => decide (Qualifies rt surface requiredExtensions d ∧ IsDiscrete rt d)))
    (horder₀ :
      l₂.filter (fun d =>
        decide (Qualifies rt surface requiredExtensions d ∧ ¬ IsDiscrete rt d)) =
      l₁.filter (fun d =>
        decide (Qualifies rt surface requiredExtensions d ∧ ¬ IsDiscrete rt d))) :
    (∃ d, mostSuitableDevice rt l₁ surface requiredExtensions = some d ∧ d ∈ l₁ ∧
      Qualifies rt surface requiredExtensions d) ∧
    mostSuitableDevice rt l₂ surface requiredExtensions =
      mostSuitableDevice rt l₁ surface requiredExtensions := by
  constructor
  · cases hm : mostSuitableDevice rt l₁ surface requiredExtensions with
    | none =>
      obtain ⟨d, hd, hq, _⟩ := hdisc
      exact absurd hq ((mostSuitableDevice_eq_none_iff rt surface requiredExtensions l₁).1 hm d hd)
    | some d =>
      exact ⟨d, rfl, mostSuitableDevice_some rt surface requiredExtensions l₁ d hm⟩
  · rw [mostSuitableDevice_eq, mostSuitableDevice_eq, firstWithScore_zero_eq,
      firstWithScore_one_eq, firstWithScore_zero_eq, firstWithScore_one_eq, horder₁, horder₀]

/-- C2, amended, on the list `[1, 2]` of `exampleRuntime` and the ordering
`[2, 1]` of it, which swaps a non-discrete and a discrete device. -/
theorem mostSuitableDevice_stable_order_witness :
    mostSuitableDevice exampleRuntime [2, 1] 7 m_deviceExtensions =
      mostSuitableDevice exampleRuntime [1, 2] 7 m_deviceExtensions :=
  (mostSuitableDevice_stable_order exampleRuntime 7 m_deviceExtensions [1, 2] [2, 1]
    ⟨2, by decide, by decide, by decide⟩ ⟨1, by decide, by decide, by decide⟩
    (List.Perm.swap 1 2 []) (by decide) (by decide)).2

/-! ## Image count of the swapchain -/

theorem swapchainImageCount_le_max_iff (capabilities : VkSurfaceCapabilitiesKHR)
    (indeterminate : Nat) (hmax : capabilities.maxImageCount ≠ 0)
    (hle : capabilities.minImageCount ≤ capabilities.maxImageCount)
    (h32 : capabilities.maxImageCount < 2 ^ 32) :
    swapchainImageCount capabilities indeterminate ≤ capabilities.maxImageCount ↔
      ¬ (capabilities.minImageCount = capabilities.maxImageCount ∧
         indeterminate < capabilities.maxImageCount ∧
         capabilities.maxImageCount ≠ 2 ^ 32 - 1) := by
  unfold swapchainImageCount
  by_cases hc : capabilities.maxImageCount = 0 ∨ indeterminate < capabilities.maxImageCount
  · rw [if_pos hc]
    have hind : indeterminate < capabilities.maxImageCount := by
      rcases hc with h | h
      · exact absurd h hmax
      · exact h
    by_cases hw : capabilities.minImageCount + 1 = 2 ^ 32
    · rw [hw, Nat.mod_self]
      constructor
      · intro _ hcon
        omega
      · intro _
        omega
    · rw [Nat.mod_eq_of_lt (by omega)]
      constructor
      · intro h1 hcon
        omega
      · intro h1
        by_contra hcon
        apply h1
        exact ⟨by omega, hind, by omega⟩
  · rw [if_neg hc, Nat.add_zero, Nat.mod_eq_of_lt (by omega)]
    constructor
    · intro _ hcon
      exact hc (Or.inr hcon.2.1)
    · intro _
      exact hle

/-- C11 fails on the code: for the snapshot `tightCapabilities`, whose minimum
and maximum image count are both 3, and a read of the unset `imageCount` that
yields 0, the image count requested is 4, above the maximum; the create-info
built by `createSwapchain` carries that count. -/
theorem swapchainImageCount_exceeds_max :
    tightCapabilities.maxImageCount ≠ 0 ∧
    tightCapabilities.minImageCount ≤ tightCapabilities.maxImageCount ∧
    swapchainImageCount tightCapabilities 0 = 4 ∧
    tightCapabilities.maxImageCount < swapchainImageCount tightCapabilities 0 ∧
    (swapchainCreateInfo 7 tightSwapchainSupport ⟨800, 600⟩ 0 ⟨some 0, some 0⟩).map
      (fun createInfo => createInfo.minImageCount) = some 4 := by
  decide

/-- C12, as stated, fails: for the snapshot `wrappingCapabilities`, whose maximum
image count is 0 and whose minimum image count is `2^32 - 1`, the image count
requested is 0, which is smaller than the minimum image count. -/
theorem swapchainImageCount_unbounded_counterexample :
    wrappingCapabilities.maxImageCount = 0 ∧
    wrappingCapabilities.minImageCount = 2 ^ 32 - 1 ∧
    swapchainImageCount wrappingCapabilities 0 = 0 ∧
    swapchainImageCount wrappingCapabilities 0 < wrappingCapabilities.minImageCount := by
  decide

/-- C12, amended: for every capability snapshot whose maximum image count is 0
and whose minimum image count is below `2^32 - 1`, and whatever the read of the
unset `imageCount` yields, the image count requested is
`max(minImageCount, minImageCount + 1)`, that is `minImageCount + 1`, and is not
smaller than the minimum image count. -/
theorem swapchainImageCount_unbounded (capabilities : VkSurfaceCapabilitiesKHR)
    (indeterminate : Nat) (hmax : capabilities.maxImageCount = 0)
    (hmin : capabilities.minImageCount < 2 ^ 32 - 1) :
    swapchainImageCount capabilities indeterminate =
      max capabilities.minImageCount (capabilities.minImageCount + 1) ∧
    swapchainImageCount capabilities indeterminate = capabilities.minImageCount + 1 ∧
    capabilities.minImageCount ≤ swapchainImageCount capabilities indeterminate := by
  have h : swapchainImageCount capabilities indeterminate =
      capabilities.minImageCount + 1 := by
    unfold swapchainImageCount
    rw [if_pos (Or.inl hmax), Nat.mod_eq_of_lt (by omega)]
  rw [h]
  exact ⟨by omega, rfl, by omega⟩

/-- C12, amended, on a snapshot with minimum image count 2 and no upper bound. -/
theorem swapchainImageCount_unbounded_witness :
    swapchainImageCount unboundedCapabilities 12345 = 3 :=
  (swapchainImageCount_unbounded unboundedCapabilities 12345 rfl (by decide)).2.1

/-! ## Sharing mode of the swapchain and queue-creation requests -/

/-- C13: for every complete pair of queue-family indices, and whenever the list
of supported formats is not empty, `createSwapchain` builds a create-info; that
create-info uses concurrent sharing with exactly the two indices (graphics,
present) listed if and only if the two indices differ, and exclusive sharing
with a family-index count of 0 and no index list if and only if they are
equal. -/
theorem swapchainCreateInfo_sharing (m_surface : VkSurfaceKHR)
    (swapchainSupport : SwapchainSupportDetails) (framebufferSize : SizeInt)
    (indeterminate : Nat) (indices : QueueFamilyIndices) (g p : Nat)
    (hformats : swapchainSupport.formats ≠ [])
    (hg : indices.graphicsFamily = some g) (hp : indices.presentFamily = some p) :
    ∃ createInfo,
      swapchainCreateInfo m_surface swapchainSupport framebufferSize indeterminate indices =
        some createInfo ∧
      ((createInfo.imageSharingMode = VK_SHARING_MODE_CONCURRENT ∧
          createInfo.queueFamilyIndexCount = 2 ∧
          createInfo.pQueueFamilyIndices = some [g, p]) ↔ g ≠ p) ∧
      ((createInfo.imageSharingMode = VK_SHARING_MODE_EXCLUSIVE ∧
          createInfo.queueFamilyIndexCount = 0 ∧
          createInfo.pQueueFamilyIndices = none) ↔ g = p) := by
  obtain ⟨surfaceFormat, hsf⟩ :
      ∃ surfaceFormat, chooseSwapSurfaceFormat swapchainSupport.formats = some surfaceFormat := by
    by_cases hpref : preferredSurfaceFormat ∈ swapchainSupport.formats
    · exact ⟨_, (chooseSwapSurfaceFormat_of_ne_nil _ hformats).1 hpref⟩
    · exact ⟨_, (chooseSwapSurfaceFormat_of_ne_nil _ hformats).2 hpref⟩
  unfold swapchainCreateInfo
  rw [hsf, hg, hp]
  by_cases hgp : g = p
  · subst hgp
    simp only [ne_eq, not_true_eq_false, if_false]
    refine ⟨_, rfl, ?_, ?_⟩
    · simp [VK_SHARING_MODE_CONCURRENT, VK_SHARING_MODE_EXCLUSIVE]
    · simp
  · have hne : (some g : Option Nat) ≠ some p := fun h => hgp (Option.some.inj h)
    simp only [ne_eq, hne, not_false_eq_true, if_true]
    refine ⟨_, rfl, ?_, ?_⟩
    · simp [hgp]
    · simp [hgp, VK_SHARING_MODE_CONCURRENT, VK_SHARING_MODE_EXCLUSIVE]

/-- C13, on the indices (0, 1): the create-info lists both families for
concurrent sharing. -/
theorem swapchainCreateInfo_sharing_witness :
    ∃ createInfo,
      swapchainCreateInfo 7 tightSwapchainSupport ⟨800, 600⟩ 0 ⟨some 0, some 1⟩ =
        some createInfo ∧
      ((createInfo.imageSharingMode = VK_SHARING_MODE_CONCURRENT ∧
          createInfo.queueFamilyIndexCount = 2 ∧
          createInfo.pQueueFamilyIndices = some [0, 1]) ↔ 0 ≠ 1) ∧
      ((createInfo.imageSharingMode = VK_SHARING_MODE_EXCLUSIVE ∧
          createInfo.queueFamilyIndexCount = 0 ∧
          createInfo.pQueueFamilyIndices = none) ↔ 0 = 1) :=
  swapchainCreateInfo_sharing 7 tightSwapchainSupport ⟨800, 600⟩ 0 ⟨some 0, some 1⟩ 0 1
    (by decide) rfl rfl

theorem uniqueQueueFamilies_eq (g p : Nat) :
    setInsert uint32Less p (setInsert uint32Less g []) =
      if p < g then [p, g] else if g < p then [g, p] else [g] := by
  unfold setInsert setInsert uint32Less
  by_cases h1 : p < g
  · simp [h1]
  · by_cases h2 : g < p
    · simp [h1, h2, setInsert]
    · simp [h1, h2]

/-- C14: for every complete pair of queue-family indices, `createLogicalDevice`
builds a create-info whose queue-creation requests contain each distinct family
index among graphics and present exactly once and nothing else: one request when
the two indices are equal, two requests with different family indices when they
differ, each asking for one queue. -/
theorem deviceCreateInfo_queue_requests (m_enableValidationLayers : Bool)
    (validationLayers : List String) (indices : QueueFamilyIndices) (g p : Nat)
    (hg : indices.graphicsFamily = some g) (hp : indices.presentFamily = some p) :
    ∃ createInfo requests,
      deviceCreateInfo m_enableValidationLayers validationLayers indices = some createInfo ∧
      createInfo.pQueueCreateInfos = some requests ∧
      createInfo.queueCreateInfoCount = requests.length ∧
      (∀ request ∈ requests, request.queueCount = 1) ∧
      (∀ family, (requests.map (fun r => r.queueFamilyIndex)).count family =
        if family = g ∨ family = p then 1 else 0) ∧
      (g = p → requests = [⟨g, 1⟩]) ∧
      (g ≠ p → requests.length = 2 ∧
        ∃ r₁ r₂, requests = [r₁, r₂] ∧ r₁.queueFamilyIndex ≠ r₂.queueFamilyIndex) := by
  unfold deviceCreateInfo
  rw [hg, hp]
  refine ⟨_, _, rfl, rfl, rfl, ?_, ?_, ?_, ?_⟩
  · intro request hr
    rw [List.mem_map] at hr
    obtain ⟨_, _, rfl⟩ := hr
    rfl
  · intro family
    rw [uniqueQueueFamilies_eq]
    by_cases h1 : p < g
    · simp only [h1, if_true, List.map_cons, List.map_nil, List.count_cons, List.count_nil]
      by_cases hfg : family = g <;> by_cases hfp : family = p <;>
        simp [hfg, hfp] <;> omega
    · by_cases h2 : g < p
      · simp only [h1, h2, if_true, if_false, List.map_cons, List.map_nil, List.count_cons,
          List.count_nil]
        by_cases hfg : family = g <;> by_cases hfp : family = p <;>
          simp [hfg, hfp] <;> omega
      · have hgp : g = p := by omega
        subst hgp
        simp only [h1, if_false, List.map_cons, List.map_nil, List.count_cons,
          List.count_nil]
        by_cases hfg : family = g <;> simp [hfg]
        exact fun h => hfg h.symm
  · intro hgp
    subst hgp
    rw [uniqueQueueFamilies_eq]
    simp
  · intro hgp
    rw [uniqueQueueFamilies_eq]
    by_cases h1 : p < g
    · simp only [h1, if_true]
      exact ⟨rfl, _, _, rfl, by simp; omega⟩
    · have h2 : g < p := by omega
      simp only [h1, h2, if_true, if_false]
      exact ⟨rfl, _, _, rfl, by simp; omega⟩

/-- C14, on the indices (2, 0): two requests, for the families 0 and 2. -/
theorem deviceCreateInfo_queue_requests_witness :
    (deviceCreateInfo true m_validationLayers ⟨some 2, some 0⟩).bind
      (fun createInfo => createInfo.pQueueCreateInfos) = some [⟨0, 1⟩, ⟨2, 1⟩] ∧
    ∃ createInfo requests,
      deviceCreateInfo true m_validationLayers ⟨some 2, some 0⟩ = some createInfo ∧
      createInfo.pQueueCreateInfos = some requests ∧
      createInfo.queueCreateInfoCount = requests.length ∧
      (∀ request ∈ requests, request.queueCount = 1) ∧
      (∀ family, (requests.map (fun r => r.queueFamilyIndex)).count family =
        if family = 2 ∨ family = 0 then 1 else 0) ∧
      (2 = 0 → requests = [⟨2, 1⟩]) ∧
      (2 ≠ 0 → requests.length = 2 ∧
        ∃ r₁ r₂, requests = [r₁, r₂] ∧ r₁.queueFamilyIndex ≠ r₂.queueFamilyIndex) :=
  ⟨by decide,
   deviceCreateInfo_queue_requests true m_validationLayers ⟨some 2, some 0⟩ 2 0 rfl rfl⟩

/-! ## Instance creation -/

theorem instanceCreateInfo_enabled (validationLayers glfwExtensions : List String) :
    (instanceCreateInfo true validationLayers glfwExtensions).ppEnabledExtensionNames =
      some (getRequiredExtensions true glfwExtensions) ∧
    (instanceCreateInfo true validationLayers glfwExtensions).enabledExtensionCount =
      (getRequiredExtensions true glfwExtensions).length ∧
    getRequiredExtensions true glfwExtensions =
      glfwExtensions ++ [VK_EXT_DEBUG_UTILS_EXTENSION_NAME] :=
  ⟨rfl, rfl, rfl⟩

theorem instanceCreateInfo_disabled (validationLayers glfwExtensions : List String) :
    (instanceCreateInfo false validationLayers glfwExtensions).ppEnabledExtensionNames = none ∧
    (instanceCreateInfo false validationLayers glfwExtensions).enabledExtensionCount =
      glfwExtensions.length ∧
    getRequiredExtensions false glfwExtensions = glfwExtensions :=
  ⟨rfl, rfl, rfl⟩

/-- C17 fails on the code with diagnostics disabled: for the platform extension
names `VK_KHR_surface` and `VK_KHR_xcb_surface`, `getRequiredExtensions` returns
those two names and the create-info declares the count 2, but its name array
is the null pointer, so it holds none of the names. -/
theorem instanceCreateInfo_disabled_drops_names :
    getRequiredExtensions false exampleGlfwExtensions =
      ["VK_KHR_surface", "VK_KHR_xcb_surface"] ∧
    (instanceCreateInfo false m_validationLayers exampleGlfwExtensions).enabledExtensionCount =
      2 ∧
    (instanceCreateInfo false m_validationLayers exampleGlfwExtensions).ppEnabledExtensionNames =
      none ∧
    (instanceCreateInfo false m_validationLayers exampleGlfwExtensions).ppEnabledExtensionNames ≠
      some (getRequiredExtensions false exampleGlfwExtensions) := by
  decide

theorem layerFound_iff (layerName : String) (availableLayers : List VkLayerProperties) :
    layerFound layerName availableLayers = true ↔
      ∃ layer ∈ availableLayers, layerName = layer.layerName := by
  induction availableLayers with
  | nil => simp [layerFound]
  | cons layerProperties rest ih =>
    unfold layerFound
    by_cases h : layerName = layerProperties.layerName
    · rw [if_pos h]
      exact ⟨fun _ => ⟨layerProperties, List.mem_cons_self _ _, h⟩, fun _ => rfl⟩
    · rw [if_neg h, ih]
      constructor
      · rintro ⟨layer, hl, he⟩
        exact ⟨layer, List.mem_cons_of_mem _ hl, he⟩
      · rintro ⟨layer, hl, he⟩
        rcases List.mem_cons.1 hl with h1 | h1
        · exact absurd (h1 ▸ he) h
        · exact ⟨layer, h1, he⟩

theorem checkValidationLayerSupport_iff (availableLayers : List VkLayerProperties)
    (requested : List String) :
    checkValidationLayerSupport availableLayers requested = true ↔
      ∀ layerName ∈ requested, ∃ layer ∈ availableLayers, layerName = layer.layerName := by
  induction requested with
  | nil => simp [checkValidationLayerSupport]
  | cons layerName rest ih =>
    unfold checkValidationLayerSupport
    by_cases h : layerFound layerName availableLayers = true
    · simp only [h, Bool.not_true, Bool.false_eq_true, if_false, ih, List.mem_cons,
        forall_eq_or_imp]
      exact ⟨fun hr => ⟨(layerFound_iff _ _).1 h, hr⟩, fun hr => hr.2⟩
    · have hf : layerFound layerName availableLayers = false := by simpa using h
      simp only [hf, Bool.not_false, if_true, List.mem_cons, forall_eq_or_imp]
      constructor
      · intro hc
        exact absurd hc (by decide)
      · rintro ⟨h1, _⟩
        exact absurd ((layerFound_iff _ _).2 h1) h

/-- C18: `checkValidationLayerSupport` returns true if and only if every requested
layer name is equal, as a string, to the name of some available layer; and when
diagnostics are enabled and it returns false for the requested layers,
`createVulkanInstance` throws "Validation layers requested but no available"
and leaves the state as it was, so that no call, and in particular no
instance-creation call, has been issued. -/
theorem checkValidationLayerSupport_exact (drv : Driver) (app : Application)
    (requested : List String) :
    (checkValidationLayerSupport drv.instanceLayerProperties requested = true ↔
      ∀ layerName ∈ requested,
        ∃ layer ∈ drv.instanceLayerProperties, layerName = layer.layerName) ∧
    (app.m_enableValidationLayers = true →
      checkValidationLayerSupport drv.instanceLayerProperties m_validationLayers = false →
      createVulkanInstance drv app =
          Except.error ("Validation layers requested but no available", app) ∧
        (finalState (createVulkanInstance drv app)).calls = app.calls ∧
        ∀ result, Call.create Resource.vulkanInstance result ∈
          (finalState (createVulkanInstance drv app)).calls →
            Call.create Resource.vulkanInstance result ∈ app.calls) := by
  refine ⟨checkValidationLayerSupport_iff _ _, fun henable hcheck => ?_⟩
  have h : createVulkanInstance drv app =
      Except.error ("Validation layers requested but no available", app) := by
    unfold createVulkanInstance
    rw [henable, hcheck]
    rfl
  rw [h]
  exact ⟨rfl, rfl, fun _ hr => hr⟩

/-- C18, on a runtime that enumerates no layer, and on a requested name that
differs from an available name in the case of its letters only. -/
theorem checkValidationLayerSupport_exact_witness :
    createVulkanInstance noLayerDriver (construct true indeterminateApplication) =
      Except.error ("Validation layers requested but no available",
        construct true indeterminateApplication) ∧
    ¬ (checkValidationLayerSupport exampleDriver.instanceLayerProperties
        ["vk_layer_khronos_validation"] = true) :=
  ⟨((checkValidationLayerSupport_exact noLayerDriver (construct true indeterminateApplication)
      []).2 rfl (by decide)).1,
   fun h =>
    absurd ((checkValidationLayerSupport_exact exampleDriver
      (construct true indeterminateApplication) ["vk_layer_khronos_validation"]).1.1 h
        "vk_layer_khronos_validation" (List.mem_singleton_self _)) (by decide)⟩

/-! ## Tie-break of the device selection, completeness of the queue families -/

theorem score_congr (rt rt' : Runtime) (surface : VkSurfaceKHR)
    (requiredExtensions : List String) (device : VkPhysicalDevice)
    (h : SameProperties rt rt' surface device) :
    score rt' surface requiredExtensions device =
      score rt surface requiredExtensions device := by
  obtain ⟨h1, h2, h3, h4, h5, h6⟩ := h
  have hq : findQueueFamilies rt' device surface = findQueueFamilies rt device surface := by
    unfold findQueueFamilies
    rw [h2]
    congr 1
    funext i
    exact h3 i
  have he : checkDeviceExtensionSupport rt' device requiredExtensions =
      checkDeviceExtensionSupport rt device requiredExtensions := by
    unfold checkDeviceExtensionSupport
    rw [h4]
  simp only [score, hq, he, querySwapchainSupport_formats,
    querySwapchainSupport_presentModes, h1, h5, h6]

/-- C19: the device returned by `mostSuitableDevice` qualifies and stands in the
list before every other device that has the same score as it; and the result is
a function of the list and of the properties of its devices: two runs on the
same list under runtimes that report the same properties for the devices of the
list return the same device. -/
theorem mostSuitableDevice_earliest_deterministic (rt : Runtime)
    (physicalDevices : List VkPhysicalDevice) (surface : VkSurfaceKHR)
    (requiredExtensions : List String) :
    (∀ device, mostSuitableDevice rt physicalDevices surface requiredExtensions = some device →
      ∃ before after, physicalDevices = before ++ device :: after ∧
        Qualifies rt surface requiredExtensions device ∧
        ∀ d ∈ before, score rt surface requiredExtensions d ≠
          score rt surface requiredExtensions device) ∧
    (∀ rt' : Runtime, (∀ d ∈ physicalDevices, SameProperties rt rt' surface d) →
      mostSuitableDevice rt' physicalDevices surface requiredExtensions =
        mostSuitableDevice rt physicalDevices surface requiredExtensions) := by
  constructor
  · intro device h
    have key : ∀ v : Int,
        firstWithScore rt surface requiredExtensions v physicalDevices = some device →
        ∃ before after, physicalDevices = before ++ device :: after ∧
          Qualifies rt surface requiredExtensions device ∧
          ∀ d ∈ before, score rt surface requiredExtensions d ≠
            score rt surface requiredExtensions device := by
      intro v hv
      unfold firstWithScore at hv
      rw [List.find?_eq_some] at hv
      obtain ⟨hs, before, after, hl, hb⟩ := hv
      have hs' : score rt surface requiredExtensions device = some v := by simpa using hs
      refine ⟨before, after, hl, ((score_eq_some_iff _ _ _ _ _).1 hs').1, fun d hd => ?_⟩
      rw [hs']
      simpa using hb d hd
    rw [mostSuitableDevice_eq, Option.or_eq_some] at h
    rcases h with h | ⟨_, h⟩
    · exact key 0 h
    · exact key 1 h
  · intro rt' hsame
    unfold mostSuitableDevice deviceList
    rw [List.foldl_ext _ _ [] (l := physicalDevices)]
    intro acc d hd
    rw [score_congr rt rt' surface requiredExtensions d (hsame d hd)]

/-- C19, on the list `[3, 1, 4, 2]` of `exampleRuntime`: the device returned,
`1`, has only a device of another score before it, and it is returned as well
under a runtime that differs in what the selection does not read. -/
theorem mostSuitableDevice_earliest_deterministic_witness :
    (∃ before after, [3, 1, 4, 2] = before ++ (1 : VkPhysicalDevice) :: after ∧
        Qualifies exampleRuntime 7 m_deviceExtensions 1 ∧
        ∀ d ∈ before, score exampleRuntime 7 m_deviceExtensions d ≠
          score exampleRuntime 7 m_deviceExtensions 1) ∧
    mostSuitableDevice exampleRuntimeOtherCapabilities [3, 1, 4, 2] 7 m_deviceExtensions =
      mostSuitableDevice exampleRuntime [3, 1, 4, 2] 7 m_deviceExtensions :=
  ⟨(mostSuitableDevice_earliest_deterministic exampleRuntime [3, 1, 4, 2] 7
      m_deviceExtensions).1 1 (by decide),
   (mostSuitableDevice_earliest_deterministic exampleRuntime [3, 1, 4, 2] 7
      m_deviceExtensions).2 exampleRuntimeOtherCapabilities
      (fun _ _ => ⟨rfl, rfl, fun _ => rfl, rfl, rfl, rfl⟩)⟩

/-- C20: the result of `findQueueFamilies` is complete if and only if the
queue-family list of the device contains at least one family with the graphics
capability bit and at least one family, possibly the same one, that supports
presentation to the surface; and a field is left unset exactly when no family
of the list has the corresponding capability. -/
theorem findQueueFamilies_complete_iff (rt : Runtime) (physicalDevice : VkPhysicalDevice)
    (surface : VkSurfaceKHR) :
    ((findQueueFamilies rt physicalDevice surface).isComplete = true ↔
      (∃ j, SupportsGraphics rt physicalDevice j) ∧
      (∃ j, SupportsPresent rt physicalDevice surface j)) ∧
    ((findQueueFamilies rt physicalDevice surface).graphicsFamily = none ↔
      ∀ j, ¬ SupportsGraphics rt physicalDevice j) ∧
    ((findQueueFamilies rt physicalDevice surface).presentFamily = none ↔
      ∀ j, ¬ SupportsPresent rt physicalDevice surface j) := by
  obtain ⟨m, h1, h2, h4, h5⟩ :=
    scanQueueFamilies_closed (rt.queueFamilyProperties physicalDevice)
      (fun i => rt.surfaceSupport physicalDevice i surface)
  have hg : lastBelow (graphicsBit (rt.queueFamilyProperties physicalDevice)) m = none ↔
      ∀ j, ¬ SupportsGraphics rt physicalDevice j := by
    rw [← Option.not_isSome_iff_eq_none, lastBelow_isSome_iff]
    constructor
    · intro hn j hj
      have hmn : m = (rt.queueFamilyProperties physicalDevice).length := by
        by_contra hc
        have hb := h5 (by omega)
        rw [bothBelow_iff] at hb
        exact hn hb.1
      obtain ⟨hlt, _⟩ := id hj
      exact hn ⟨j, by omega, (graphicsBit_iff rt physicalDevice j).2 hj⟩
    · rintro hn ⟨j, _, hj⟩
      exact hn j ((graphicsBit_iff rt physicalDevice j).1 hj)
  have hp : lastBelow (fun i => rt.surfaceSupport physicalDevice i surface) m = none ↔
      ∀ j, ¬ SupportsPresent rt physicalDevice surface j := by
    rw [← Option.not_isSome_iff_eq_none, lastBelow_isSome_iff]
    constructor
    · intro hn j hj
      have hmn : m = (rt.queueFamilyProperties physicalDevice).length := by
        by_contra hc
        have hb := h5 (by omega)
        rw [bothBelow_iff] at hb
        exact hn hb.2
      exact hn ⟨j, by have := hj.1; omega, hj.2⟩
    · rintro hn ⟨j, hjm, hj⟩
      exact hn j ⟨by omega, hj⟩
  unfold findQueueFamilies
  rw [h2]
  refine ⟨?_, hg, hp⟩
  unfold QueueFamilyIndices.isComplete
  simp only [Bool.and_eq_true]
  rw [← not_iff_not, not_and_or, not_and_or, Option.not_isSome_iff_eq_none,
    Option.not_isSome_iff_eq_none, hg, hp, not_exists, not_exists]

/-- C20, on the device `1` of `exampleRuntime` and on the same device under a
surface that no family can present to. -/
theorem findQueueFamilies_complete_iff_witness :
    ((∃ j, SupportsGraphics exampleRuntime 1 j) ∧ (∃ j, SupportsPresent exampleRuntime 1 7 j)) ∧
    ∀ j, ¬ SupportsPresent exampleRuntimeNoPresent 1 7 j :=
  ⟨(findQueueFamilies_complete_iff exampleRuntime 1 7).1.1 (by decide),
   (findQueueFamilies_complete_iff exampleRuntimeNoPresent 1 7).2.2.1 (by decide)⟩

/-! ## Acquisition and release -/

theorem acquired_append (l₁ l₂ : List Call) :
    acquired (l₁ ++ l₂) = acquired l₁ ++ acquired l₂ := by
  induction l₁ with
  | nil => rfl
  | cons c l ih =>
    cases c with
    | create resource result =>
      cases result with
      | none => simpa [acquired] using ih
      | some handle => simpa [acquired] using ih
    | destroy resource handle => simpa [acquired] using ih

theorem released_append (l₁ l₂ : List Call) :
    released (l₁ ++ l₂) = released l₁ ++ released l₂ := by
  induction l₁ with
  | nil => rfl
  | cons c l ih =>
    cases c with
    | create resource result => simpa [released] using ih
    | destroy resource handle => simpa [released] using ih

theorem acquired_map_create (resource : Resource) (handles : List Nat) :
    acquired (handles.map (fun handle => Call.create resource (some handle))) =
      handles.map (fun handle => (resource, handle)) := by
  induction handles with
  | nil => rfl
  | cons a l ih => simpa [acquired] using ih

theorem released_map_destroy (resource : Resource) (handles : List Nat) :
    released (handles.map (fun handle => Call.destroy resource handle)) =
      handles.map (fun handle => (resource, handle)) := by
  induction handles with
  | nil => rfl
  | cons a l ih => simpa [released] using ih

theorem runStages_cons_ok (stage : Application → Step) (rest : List (Application → Step))
    (app app' : Application) (h : runStages (stage :: rest) app = Except.ok app') :
    ∃ app₁, stage app = Except.ok app₁ ∧ runStages rest app₁ = Except.ok app' := by
  unfold runStages at h
  cases hs : stage app with
  | ok app₁ =>
    rw [hs] at h
    exact ⟨app₁, rfl, h⟩
  | error e =>
    rw [hs] at h
    exact absurd h (by simp)

theorem createVulkanInstance_ok (drv : Driver) (app app' : Application)
    (h : createVulkanInstance drv app = Except.ok app') :
    ∃ vulkanInstance,
      app' = { app with
        m_vulkanInstance := vulkanInstance
        calls := app.calls ++ [Call.create Resource.vulkanInstance (some vulkanInstance)] } := by
  simp only [createVulkanInstance] at h
  split at h
  · exact absurd h (by simp)
  · cases hv : drv.vkCreateInstance
        (instanceCreateInfo app.m_enableValidationLayers m_validationLayers
          drv.glfwRequiredInstanceExtensions) with
    | none =>
      rw [hv] at h
      exact absurd h (by simp)
    | some vulkanInstance =>
      rw [hv] at h
      exact ⟨vulkanInstance, (Except.ok.inj h).symm⟩

theorem setupDebugMessenger_ok (drv : Driver) (app app' : Application)
    (h : setupDebugMessenger drv app = Except.ok app') :
    (app.m_enableValidationLayers = false ∧ app' = app) ∨
    (app.m_enableValidationLayers = true ∧
      ∃ messenger,
        app' = { app with
          debugMessenger := messenger
          calls := app.calls ++ [Call.create Resource.debugMessenger (some messenger)] }) := by
  simp only [setupDebugMessenger] at h
  cases he : app.m_enableValidationLayers with
  | false =>
    rw [he] at h
    exact Or.inl ⟨rfl, (Except.ok.inj h).symm⟩
  | true =>
    rw [he] at h
    cases hm : drv.createDebugUtilsMessengerEXT app.m_vulkanInstance with
    | none =>
      rw [hm] at h
      exact absurd h (by simp)
    | some messenger =>
      rw [hm] at h
      refine Or.inr ⟨rfl, messenger, ?_⟩
      have := (Except.ok.inj h).symm
      simpa using this

theorem createSurface_ok (drv : Driver) (app app' : Application)
    (h : createSurface drv app = Except.ok app') :
    ∃ surface,
      app' = { app with
        m_surface := surface
        calls := app.calls ++ [Call.create Resource.surface (some surface)] } := by
  simp only [createSurface] at h
  cases hs : drv.glfwCreateWindowSurface app.m_vulkanInstance with
  | none =>
    rw [hs] at h
    exact absurd h (by simp)
  | some surface =>
    rw [hs] at h
    exact ⟨surface, (Except.ok.inj h).symm⟩

theorem selectPhysicalDevice_ok (rt : Runtime) (app app' : Application)
    (h : selectPhysicalDevice rt app = Except.ok app') :
    ∃ physicalDevice, app' = { app with m_physicalDevice := physicalDevice } := by
  simp only [selectPhysicalDevice] at h
  cases hp : pickPhysicalDevice rt app.m_surface with
  | error message =>
    rw [hp] at h
    exact absurd h (by simp)
  | ok physicalDevice =>
    rw [hp] at h
    exact ⟨physicalDevice, (Except.ok.inj h).symm⟩

theorem createLogicalDevice_ok (drv : Driver) (rt : Runtime) (app app' : Application)
    (h : createLogicalDevice drv rt app = Except.ok app') :
    ∃ device graphicsQueue presentQueue,
      app' = { app with
        m_device := device
        m_graphicsQueue := graphicsQueue
        m_presentQueue := presentQueue
        calls := app.calls ++ [Call.create Resource.device (some device)] } := by
  simp only [createLogicalDevice] at h
  split at h
  · rename_i graphicsFamily presentFamily createInfo _ _ _
    cases hd : drv.vkCreateDevice app.m_physicalDevice createInfo with
    | none =>
      rw [hd] at h
      exact absurd h (by simp)
    | some device =>
      rw [hd] at h
      exact ⟨device, _, _, (Except.ok.inj h).symm⟩
  · exact absurd h (by simp)

theorem createSwapchain_ok (drv : Driver) (rt : Runtime) (app app' : Application)
    (h : createSwapchain drv rt app = Except.ok app') :
    ∃ swapchain images format extent,
      app' = { app with
        m_swapchain := swapchain
        m_swapchainImages := images
        m_swapchainImageFormat := format
        m_swapchainExtent := extent
        calls := app.calls ++ [Call.create Resource.swapchain (some swapchain)] } := by
  simp only [createSwapchain] at h
  split at h
  · rename_i createInfo _
    cases hs : drv.vkCreateSwapchainKHR app.m_device createInfo with
    | none =>
      rw [hs] at h
      exact absurd h (by simp)
    | some swapchain =>
      rw [hs] at h
      exact ⟨swapchain, _, _, _, (Except.ok.inj h).symm⟩
  · exact absurd h (by simp)

theorem createSwapchain_error (drv : Driver) (rt : Runtime) (app app' : Application)
    (message : String) (h : createSwapchain drv rt app = Except.error (message, app')) :
    app' = app ∨
    app' = { app with calls := app.calls ++ [Call.create Resource.swapchain none] } := by
  simp only [createSwapchain] at h
  split at h
  · rename_i createInfo _
    cases hs : drv.vkCreateSwapchainKHR app.m_device createInfo with
    | none =>
      rw [hs] at h
      exact Or.inr (Prod.mk.inj (Except.error.inj h)).2.symm
    | some swapchain =>
      rw [hs] at h
      exact absurd h (by simp)
  · exact Or.inl (Prod.mk.inj (Except.error.inj h)).2.symm

theorem createRenderPass_ok (drv : Driver) (app app' : Application)
    (h : createRenderPass drv app = Except.ok app') :
    ∃ renderPass,
      app' = { app with
        m_renderPass := renderPass
        calls := app.calls ++ [Call.create Resource.renderPass (some renderPass)] } := by
  simp only [createRenderPass] at h
  cases hr : drv.vkCreateRenderPass app.m_device with
  | none =>
    rw [hr] at h
    exact absurd h (by simp)
  | some renderPass =>
    rw [hr] at h
    exact ⟨renderPass, (Except.ok.inj h).symm⟩

theorem createGraphicsPipeline_ok (drv : Driver) (app app' : Application)
    (h : createGraphicsPipeline drv app = Except.ok app') :
    ∃ vertShaderModule fragShaderModule pipelineLayout graphicsPipeline,
      app' = { app with
        m_pipelineLayout := pipelineLayout
        m_graphicsPipeline := graphicsPipeline
        calls := app.calls ++
          [Call.create Resource.shaderModule (some vertShaderModule),
           Call.create Resource.shaderModule (some fragShaderModule),
           Call.create Resource.pipelineLayout (some pipelineLayout),
           Call.create Resource.graphicsPipeline (some graphicsPipeline),
           Call.destroy Resource.shaderModule fragShaderModule,
           Call.destroy Resource.shaderModule vertShaderModule] } := by
  simp only [createGraphicsPipeline] at h
  split at h
  · rename_i vertShaderCode fragShaderCode _ _
    cases hv : drv.vkCreateShaderModule app.m_device vertShaderCode with
    | none =>
      rw [hv] at h
      exact absurd h (by simp)
    | some vertShaderModule =>
      rw [hv] at h
      cases hf : drv.vkCreateShaderModule app.m_device fragShaderCode with
      | none =>
        simp only [hf] at h
        exact absurd h (by simp)
      | some fragShaderModule =>
        simp only [hf] at h
        cases hl : drv.vkCreatePipelineLayout app.m_device with
        | none =>
          simp only [hl] at h
          exact absurd h (by simp)
        | some pipelineLayout =>
          simp only [hl] at h
          cases hg : drv.vkCreateGraphicsPipelines app.m_device with
          | none =>
            simp only [hg] at h
            exact absurd h (by simp)
          | some graphicsPipeline =>
            simp only [hg] at h
            refine ⟨vertShaderModule, fragShaderModule, pipelineLayout, graphicsPipeline, ?_⟩
            rw [← Except.ok.inj h]
            simp
  · exact absurd h (by simp)

theorem createImageViewsLoop_ok (drv : Driver) :
    ∀ (images : List Nat) (i : Nat) (app app' : Application) (created : List Nat),
      app.m_swapchainImageViews = created ++ List.replicate images.length VK_NULL_HANDLE →
      created.length = i →
      createImageViewsLoop drv images i app = Except.ok app' →
      ∃ imageViews, imageViews.length = images.length ∧
        app' = { app with
          m_swapchainImageViews := created ++ imageViews
          calls := app.calls ++
            imageViews.map (fun imageView =>
              Call.create Resource.imageView (some imageView)) } := by
  intro images
  induction images with
  | nil =>
    intro i app app' created hviews _ h
    simp only [createImageViewsLoop] at h
    refine ⟨[], rfl, ?_⟩
    rw [← Except.ok.inj h]
    simp only [List.length_nil, List.replicate_zero, List.append_nil] at hviews
    simp only [List.append_nil, List.map_nil, ← hviews]
  | cons image rest ih =>
    intro i app app' created hviews hlen h
    simp only [createImageViewsLoop] at h
    cases hv : drv.vkCreateImageView app.m_device image with
    | none =>
      rw [hv] at h
      exact absurd h (by simp)
    | some imageView =>
      rw [hv] at h
      have hset : app.m_swapchainImageViews.set i imageView =
          (created ++ [imageView]) ++ List.replicate rest.length VK_NULL_HANDLE := by
        rw [hviews, ← hlen]
        simp [List.replicate_succ]
      obtain ⟨imageViews, hl, happ⟩ :=
        ih (i + 1) _ app' (created ++ [imageView]) hset (by simp [hlen]) h
      refine ⟨imageView :: imageViews, by simp [hl], ?_⟩
      rw [happ]
      simp

theorem createImageViews_ok (drv : Driver) (app app' : Application)
    (hempty : app.m_swapchainImageViews = [])
    (h : createImageViews drv app = Except.ok app') :
    ∃ imageViews, imageViews.length = app.m_swapchainImages.length ∧
      app' = { app with
        m_swapchainImageViews := imageViews
        calls := app.calls ++
          imageViews.map (fun imageView =>
            Call.create Resource.imageView (some imageView)) } := by
  simp only [createImageViews] at h
  obtain ⟨imageViews, hl, happ⟩ :=
    createImageViewsLoop_ok drv _ 0 _ app' [] (by simp [vectorResize, hempty]) rfl h
  exact ⟨imageViews, hl, by rw [happ]; simp⟩

theorem runStages_nil_ok (app app' : Application)
    (h : runStages [] app = Except.ok app') : app' = app :=
  (Except.ok.inj h).symm

theorem init_ok (drv : Driver) (rt : Runtime) (enable : Bool)
    (indeterminate app : Application)
    (h : init drv rt (construct enable indeterminate) = Except.ok app) :
    ∃ vertShaderModule fragShaderModule : Nat,
      app.m_enableValidationLayers = enable ∧
      app.calls =
        [Call.create Resource.vulkanInstance (some app.m_vulkanInstance)] ++
        (if enable then [Call.create Resource.debugMessenger (some app.debugMessenger)]
         else []) ++
        [Call.create Resource.surface (some app.m_surface),
         Call.create Resource.device (some app.m_device),
         Call.create Resource.swapchain (some app.m_swapchain)] ++
        app.m_swapchainImageViews.map
          (fun imageView => Call.create Resource.imageView (some imageView)) ++
        [Call.create Resource.renderPass (some app.m_renderPass),
         Call.create Resource.shaderModule (some vertShaderModule),
         Call.create Resource.shaderModule (some fragShaderModule),
         Call.create Resource.pipelineLayout (some app.m_pipelineLayout),
         Call.create Resource.graphicsPipeline (some app.m_graphicsPipeline),
         Call.destroy Resource.shaderModule fragShaderModule,
         Call.destroy Resource.shaderModule vertShaderModule] := by
  unfold init stages at h
  obtain ⟨a1, h1, h⟩ := runStages_cons_ok _ _ _ _ h
  obtain ⟨a2, h2, h⟩ := runStages_cons_ok _ _ _ _ h
  obtain ⟨a3, h3, h⟩ := runStages_cons_ok _ _ _ _ h
  obtain ⟨a4, h4, h⟩ := runStages_cons_ok _ _ _ _ h
  obtain ⟨a5, h5, h⟩ := runStages_cons_ok _ _ _ _ h
  obtain ⟨a6, h6, h⟩ := runStages_cons_ok _ _ _ _ h
  obtain ⟨a7, h7, h⟩ := runStages_cons_ok _ _ _ _ h
  obtain ⟨a8, h8, h⟩ := runStages_cons_ok _ _ _ _ h
  obtain ⟨a9, h9, h⟩ := runStages_cons_ok _ _ _ _ h
  have e10 := runStages_nil_ok _ _ h
  obtain ⟨vulkanInstance, e1⟩ := createVulkanInstance_ok _ _ _ h1
  obtain ⟨surface, e3⟩ := createSurface_ok _ _ _ h3
  obtain ⟨physicalDevice, e4⟩ := selectPhysicalDevice_ok _ _ _ h4
  obtain ⟨device, graphicsQueue, presentQueue, e5⟩ := createLogicalDevice_ok _ _ _ _ h5
  obtain ⟨swapchain, images, format, extent, e6⟩ := createSwapchain_ok _ _ _ _ h6
  obtain ⟨renderPass, e8⟩ := createRenderPass_ok _ _ _ h8
  obtain ⟨vertShaderModule, fragShaderModule, pipelineLayout, graphicsPipeline, e9⟩ :=
    createGraphicsPipeline_ok _ _ _ h9
  refine ⟨vertShaderModule, fragShaderModule, ?_⟩
  rcases setupDebugMessenger_ok _ _ _ h2 with ⟨he, e2⟩ | ⟨he, messenger, e2⟩
  · have hempty : a6.m_swapchainImageViews = [] := by
      rw [e6, e5, e4, e3, e2, e1]
      rfl
    obtain ⟨imageViews, _, e7⟩ := createImageViews_ok _ _ _ hempty h7
    have hen : enable = false := by
      rw [e1] at he
      exact he
    subst hen
    rw [e10, e9, e8, e7, e6, e5, e4, e3, e2, e1]
    simp [construct]
  · have hempty : a6.m_swapchainImageViews = [] := by
      rw [e6, e5, e4, e3, e2, e1]
      rfl
    obtain ⟨imageViews, _, e7⟩ := createImageViews_ok _ _ _ hempty h7
    have hen : enable = true := by
      rw [e1] at he
      exact he
    subst hen
    rw [e10, e9, e8, e7, e6, e5, e4, e3, e2, e1]
    simp [construct]

/-- C15, as stated, fails.  Under `exampleDriver`, `init` succeeds with
diagnostics enabled and with diagnostics disabled.  With diagnostics enabled
it acquires the debug messenger (handle 11) before the surface (handle 12), and
`cleanup` releases the debug messenger before the surface as well.  In both
runs `init` acquires the image view 21 before the image view 22, and `cleanup`
releases 21 before 22. -/
theorem cleanup_reverse_order_counterexample :
    thrown (exampleInit true) = none ∧
    acquired (finalState (exampleInit true)).calls =
      [(Resource.vulkanInstance, 10), (Resource.debugMessenger, 11), (Resource.surface, 12),
       (Resource.device, 13), (Resource.swapchain, 14), (Resource.imageView, 21),
       (Resource.imageView, 22), (Resource.renderPass, 15), (Resource.shaderModule, 31),
       (Resource.shaderModule, 32), (Resource.pipelineLayout, 16),
       (Resource.graphicsPipeline, 17)] ∧
    released (cleanupCalls (finalState (exampleInit true))) =
      [(Resource.graphicsPipeline, 17), (Resource.pipelineLayout, 16),
       (Resource.renderPass, 15), (Resource.imageView, 21), (Resource.imageView, 22),
       (Resource.device, 13), (Resource.debugMessenger, 11), (Resource.surface, 12),
       (Resource.vulkanInstance, 10)] ∧
    thrown (exampleInit false) = none ∧
    acquired (finalState (exampleInit false)).calls =
      [(Resource.vulkanInstance, 10), (Resource.surface, 12),
       (Resource.device, 13), (Resource.swapchain, 14), (Resource.imageView, 21),
       (Resource.imageView, 22), (Resource.renderPass, 15), (Resource.shaderModule, 31),
       (Resource.shaderModule, 32), (Resource.pipelineLayout, 16),
       (Resource.graphicsPipeline, 17)] ∧
    released (cleanupCalls (finalState (exampleInit false))) =
      [(Resource.graphicsPipeline, 17), (Resource.pipelineLayout, 16),
       (Resource.renderPass, 15), (Resource.imageView, 21), (Resource.imageView, 22),
       (Resource.device, 13), (Resource.surface, 12), (Resource.vulkanInstance, 10)] := by
  decide

/-- C15, amended: after a successful `init`, `cleanup` releases, in this order,
the pipeline, the pipeline layout, the render pass, the image views in the
order of their creation, the logical device, the debug messenger (when
diagnostics are enabled), the surface and the instance, while `init` acquired
the instance, the debug messenger (when diagnostics are enabled), the surface,
the logical device, the swapchain, the image views, the render pass, the two
shader modules, the pipeline layout and the pipeline.  The release order is the
reverse of the acquisition order of the released objects except that the image
views are released in creation order and that the debug messenger, acquired
before the surface, is released before it; with diagnostics disabled and at
most one image view it is exactly the reverse. -/
theorem cleanup_release_order (drv : Driver) (rt : Runtime) (enable : Bool)
    (indeterminate app : Application)
    (h : init drv rt (construct enable indeterminate) = Except.ok app) :
    ∃ vertShaderModule fragShaderModule : Nat,
      acquired app.calls =
        [(Resource.vulkanInstance, app.m_vulkanInstance)] ++
        (if enable then [(Resource.debugMessenger, app.debugMessenger)] else []) ++
        [(Resource.surface, app.m_surface), (Resource.device, app.m_device),
         (Resource.swapchain, app.m_swapchain)] ++
        app.m_swapchainImageViews.map (fun imageView => (Resource.imageView, imageView)) ++
        [(Resource.renderPass, app.m_renderPass),
         (Resource.shaderModule, vertShaderModule),
         (Resource.shaderModule, fragShaderModule),
         (Resource.pipelineLayout, app.m_pipelineLayout),
         (Resource.graphicsPipeline, app.m_graphicsPipeline)] ∧
      released (cleanupCalls app) =
        [(Resource.graphicsPipeline, app.m_graphicsPipeline),
         (Resource.pipelineLayout, app.m_pipelineLayout),
         (Resource.renderPass, app.m_renderPass)] ++
        app.m_swapchainImageViews.map (fun imageView => (Resource.imageView, imageView)) ++
        [(Resource.device, app.m_device)] ++
        (if enable then [(Resource.debugMessenger, app.debugMessenger)] else []) ++
        [(Resource.surface, app.m_surface),
         (Resource.vulkanInstance, app.m_vulkanInstance)] ∧
      (enable = false → app.m_swapchainImageViews.length ≤ 1 →
        released (cleanupCalls app) =
          ((acquired app.calls).filter
            (fun r => decide (r ∈ released (cleanupCalls app)))).reverse) := by
  obtain ⟨vertShaderModule, fragShaderModule, hen, hcalls⟩ :=
    init_ok drv rt enable indeterminate app h
  have hacq : acquired app.calls =
      [(Resource.vulkanInstance, app.m_vulkanInstance)] ++
      (if enable then [(Resource.debugMessenger, app.debugMessenger)] else []) ++
      [(Resource.surface, app.m_surface), (Resource.device, app.m_device),
       (Resource.swapchain, app.m_swapchain)] ++
      app.m_swapchainImageViews.map (fun imageView => (Resource.imageView, imageView)) ++
      [(Resource.renderPass, app.m_renderPass),
       (Resource.shaderModule, vertShaderModule),
       (Resource.shaderModule, fragShaderModule),
       (Resource.pipelineLayout, app.m_pipelineLayout),
       (Resource.graphicsPipeline, app.m_graphicsPipeline)] := by
    rw [hcalls]
    cases enable <;>
      simp [acquired_append, acquired_map_create, acquired]
  have hrel : released (cleanupCalls app) =
      [(Resource.graphicsPipeline, app.m_graphicsPipeline),
       (Resource.pipelineLayout, app.m_pipelineLayout),
       (Resource.renderPass, app.m_renderPass)] ++
      app.m_swapchainImageViews.map (fun imageView => (Resource.imageView, imageView)) ++
      [(Resource.device, app.m_device)] ++
      (if enable then [(Resource.debugMessenger, app.debugMessenger)] else []) ++
      [(Resource.surface, app.m_surface),
       (Resource.vulkanInstance, app.m_vulkanInstance)] := by
    unfold cleanupCalls
    rw [hen]
    cases enable <;>
      simp [released_append, released_map_destroy, released]
  refine ⟨vertShaderModule, fragShaderModule, hacq, hrel, ?_⟩
  intro he hlen
  rw [hrel, hacq]
  subst he
  cases hv : app.m_swapchainImageViews with
  | nil => simp [List.filter_cons]
  | cons imageView rest =>
    cases rest with
    | nil => simp [List.filter_cons]
    | cons imageView₂ rest₂ =>
      rw [hv] at hlen
      simp at hlen

/-- C15, amended, on the run `exampleInit false`. -/
theorem cleanup_release_order_witness :
    ∃ vertShaderModule fragShaderModule : Nat,
      acquired (finalState (exampleInit false)).calls =
        [(Resource.vulkanInstance, 10)] ++ [] ++
        [(Resource.surface, 12), (Resource.device, 13), (Resource.swapchain, 14)] ++
        [(Resource.imageView, 21), (Resource.imageView, 22)] ++
        [(Resource.renderPass, 15),
         (Resource.shaderModule, vertShaderModule),
         (Resource.shaderModule, fragShaderModule),
         (Resource.pipelineLayout, 16),
         (Resource.graphicsPipeline, 17)] ∧
      released (cleanupCalls (finalState (exampleInit false))) =
        [(Resource.graphicsPipeline, 17), (Resource.pipelineLayout, 16),
         (Resource.renderPass, 15)] ++
        [(Resource.imageView, 21), (Resource.imageView, 22)] ++
        [(Resource.device, 13)] ++ [] ++
        [(Resource.surface, 12), (Resource.vulkanInstance, 10)] :=
  have h := cleanup_release_order exampleDriver exampleRuntime false indeterminateApplication
    (finalState (exampleInit false)) rfl
  h.elim (fun v hv => hv.elim (fun f hf => ⟨v, f, hf.1, hf.2.1⟩))

theorem runStages_fail :
    ∀ (l : List (Application → Step)) (k : Nat) (stage : Application → Step)
      (app appₖ : Application) (e : String × Application),
      l[k]? = some stage →
      runStages (l.take k) app = Except.ok appₖ →
      stage appₖ = Except.error e →
      runStages l app = Except.error e := by
  intro l
  induction l with
  | nil =>
    intro k stage app appₖ e hk
    simp at hk
  | cons s rest ih =>
    intro k stage app appₖ e hk hpre hfail
    cases k with
    | zero =>
      simp only [List.getElem?_cons_zero, Option.some.injEq] at hk
      simp only [List.take_zero, runStages] at hpre
      have happ : app = appₖ := Except.ok.inj hpre
      subst hk
      subst happ
      simp only [runStages, hfail]
    | succ k =>
      simp only [List.getElem?_cons_succ] at hk
      simp only [List.take_succ_cons] at hpre
      obtain ⟨app₁, h1, h2⟩ := runStages_cons_ok _ _ _ _ hpre
      simp only [runStages, h1]
      exact ih k stage app₁ appₖ e hk h2 hfail

theorem stages_before_swapchain_ok (drv : Driver) (rt : Runtime) (enable : Bool)
    (indeterminate app : Application)
    (h : runStages ((stages drv rt).take 5) (construct enable indeterminate) =
      Except.ok app) :
    app.m_enableValidationLayers = enable ∧
    app.m_swapchainImageViews = [] ∧
    app.m_graphicsPipeline = indeterminate.m_graphicsPipeline ∧
    app.m_pipelineLayout = indeterminate.m_pipelineLayout ∧
    app.m_renderPass = indeterminate.m_renderPass ∧
    app.calls =
      [Call.create Resource.vulkanInstance (some app.m_vulkanInstance)] ++
      (if enable then [Call.create Resource.debugMessenger (some app.debugMessenger)]
       else []) ++
      [Call.create Resource.surface (some app.m_surface),
       Call.create Resource.device (some app.m_device)] := by
  have htake : (stages drv rt).take 5 =
      [createVulkanInstance drv, setupDebugMessenger drv, createSurface drv,
       selectPhysicalDevice rt, createLogicalDevice drv rt] := rfl
  rw [htake] at h
  obtain ⟨a1, h1, h⟩ := runStages_cons_ok _ _ _ _ h
  obtain ⟨a2, h2, h⟩ := runStages_cons_ok _ _ _ _ h
  obtain ⟨a3, h3, h⟩ := runStages_cons_ok _ _ _ _ h
  obtain ⟨a4, h4, h⟩ := runStages_cons_ok _ _ _ _ h
  obtain ⟨a5, h5, h⟩ := runStages_cons_ok _ _ _ _ h
  have e6 := runStages_nil_ok _ _ h
  obtain ⟨vulkanInstance, e1⟩ := createVulkanInstance_ok _ _ _ h1
  obtain ⟨surface, e3⟩ := createSurface_ok _ _ _ h3
  obtain ⟨physicalDevice, e4⟩ := selectPhysicalDevice_ok _ _ _ h4
  obtain ⟨device, graphicsQueue, presentQueue, e5⟩ := createLogicalDevice_ok _ _ _ _ h5
  rcases setupDebugMessenger_ok _ _ _ h2 with ⟨he, e2⟩ | ⟨he, messenger, e2⟩
  · have hen : enable = false := by
      rw [e1] at he
      exact he
    subst hen
    rw [e6, e5, e4, e3, e2, e1]
    simp [construct]
  · have hen : enable = true := by
      rw [e1] at he
      exact he
    subst hen
    rw [e6, e5, e4, e3, e2, e1]
    simp [construct]

/-- C16, as stated, fails.  In the run `failedSwapchainInit`, `init` throws
"Failed to create swapchain" after it has acquired the instance, the debug
messenger, the surface and the logical device; `cleanup` on the state at the
throw issues release calls for a pipeline, a pipeline layout and a render pass,
none of which was acquired, with the values 100, 99 and 98 that the members had
before `init`. -/
theorem cleanup_after_failure_counterexample :
    thrown failedSwapchainInit = some "Failed to create swapchain" ∧
    acquired (finalState failedSwapchainInit).calls =
      [(Resource.vulkanInstance, 10), (Resource.debugMessenger, 11), (Resource.surface, 12),
       (Resource.device, 13)] ∧
    cleanupCalls (finalState failedSwapchainInit) =
      [Call.destroy Resource.graphicsPipeline 100, Call.destroy Resource.pipelineLayout 99,
       Call.destroy Resource.renderPass 98, Call.destroy Resource.device 13,
       Call.destroy Resource.debugMessenger 11, Call.destroy Resource.surface 12,
       Call.destroy Resource.vulkanInstance 10] := by
  decide

/-- C16, amended: at whatever stage `init` fails, `cleanup` run on the state at
the failure issues a release call for the pipeline, the pipeline layout and the
render pass, one for every entry of the image-view vector, and one for the
logical device, the debug messenger (when diagnostics are enabled), the surface
and the instance, with the values the members hold, whether or not the objects
were acquired before the failure.  In particular after a failure in
`createSwapchain` it issues no release of an image view, it releases the
logical device, the surface and the instance that `init` acquired (and the
debug messenger, when diagnostics are enabled), and the pipeline, pipeline
layout and render pass named in the first three calls are the values the
members had before `init`. -/
theorem cleanup_after_failure (drv : Driver) (rt : Runtime) (enable : Bool)
    (indeterminate : Application) (k : Nat) (stage : Application → Step)
    (appₖ app : Application) (message : String)
    (hstage : (stages drv rt)[k]? = some stage)
    (hpre : runStages ((stages drv rt).take k) (construct enable indeterminate) =
      Except.ok appₖ)
    (hfail : stage appₖ = Except.error (message, app)) :
    init drv rt (construct enable indeterminate) = Except.error (message, app) ∧
    cleanupCalls app =
      [Call.destroy Resource.graphicsPipeline app.m_graphicsPipeline,
       Call.destroy Resource.pipelineLayout app.m_pipelineLayout,
       Call.destroy Resource.renderPass app.m_renderPass] ++
      app.m_swapchainImageViews.map
        (fun imageView => Call.destroy Resource.imageView imageView) ++
      [Call.destroy Resource.device app.m_device] ++
      (if app.m_enableValidationLayers then
        [Call.destroy Resource.debugMessenger app.debugMessenger] else []) ++
      [Call.destroy Resource.surface app.m_surface,
       Call.destroy Resource.vulkanInstance app.m_vulkanInstance] ∧
    (k = 5 →
      acquired app.calls =
        [(Resource.vulkanInstance, app.m_vulkanInstance)] ++
        (if enable then [(Resource.debugMessenger, app.debugMessenger)] else []) ++
        [(Resource.surface, app.m_surface), (Resource.device, app.m_device)] ∧
      cleanupCalls app =
        [Call.destroy Resource.graphicsPipeline indeterminate.m_graphicsPipeline,
         Call.destroy Resource.pipelineLayout indeterminate.m_pipelineLayout,
         Call.destroy Resource.renderPass indeterminate.m_renderPass,
         Call.destroy Resource.device app.m_device] ++
        (if enable then [Call.destroy Resource.debugMessenger app.debugMessenger] else []) ++
        [Call.destroy Resource.surface app.m_surface,
         Call.destroy Resource.vulkanInstance app.m_vulkanInstance]) := by
  refine ⟨runStages_fail _ k stage _ appₖ _ hstage hpre hfail, rfl, ?_⟩
  intro hk
  subst hk
  have hs : stage = createSwapchain drv rt := by
    have : (stages drv rt)[5]? = some (createSwapchain drv rt) := rfl
    rw [this] at hstage
    exact (Option.some.inj hstage).symm
  subst hs
  obtain ⟨hen, hviews, hgp, hpl, hrp, hcalls⟩ :=
    stages_before_swapchain_ok drv rt enable indeterminate appₖ hpre
  rcases createSwapchain_error drv rt appₖ app message hfail with happ | happ
  · subst happ
    constructor
    · rw [hcalls]
      cases enable <;> simp [acquired]
    · unfold cleanupCalls
      rw [hen, hviews, hgp, hpl, hrp]
      cases enable <;> simp
  · constructor
    · rw [happ]
      simp only [acquired_append, hcalls]
      cases enable <;> simp [acquired]
    · unfold cleanupCalls
      rw [happ]
      simp only [hen, hviews, hgp, hpl, hrp]
      cases enable <;> simp

/-- C16, amended, on the run `failedSwapchainInit`. -/
theorem cleanup_after_failure_witness :
    init failingSwapchainDriver exampleRuntime (construct true indeterminateApplication) =
      Except.error ("Failed to create swapchain", finalState failedSwapchainInit) :=
  (cleanup_after_failure failingSwapchainDriver exampleRuntime true indeterminateApplication 5
    (createSwapchain failingSwapchainDriver exampleRuntime)
    (finalState (runStages ((stages failingSwapchainDriver exampleRuntime).take 5)
      (construct true indeterminateApplication)))
    (finalState failedSwapchainInit) "Failed to create swapchain" rfl rfl rfl).1

end VulkanFunStuff
